import Mathlib

/-! Terminal control of mpg123 (`src/term.c`).

A shallow embedding of `term.c`: the file-level variables of `term.c` and the
player globals it reads and writes form the record `St`; every call to a
collaborator outside `term.c` (decoder, output sink, playlist, status printer,
operating system) is appended to the call log `St.calls` in program order,
and the value such a call returns is read from the oracle record `Env`, whose
fields are functions of the call log so far.  `debug`/`mdebug` lines are
compiled out in a normal build and are not modelled; `error`/`merror` lines
are logged as `Call.error`.

`off_t`, `int` and `long` are unbounded integers: the properties proved below
do not depend on wrap-around of integer arithmetic.  The one conversion of a
`double` to `int`, `(int)(LOOP_CYCLES/mpg123_tpf(fr))`, yields a 32-bit value
(`Dbl.div_to_int`).  `double` is modelled bit-exactly in the normal range of
binary64 (`Dbl`).
-/

set_option maxRecDepth 100000

namespace Term

/-! ## binary64 arithmetic -/

/-- A finite `double`: the value `mant * 2 ^ exp`. -/
structure Dbl where
  mant : Int
  exp : Int
deriving DecidableEq, Repr

/-- Helper of `ilog2`: at most `fuel` halvings. -/
def ilog2_aux : Nat → Nat → Nat
  | 0, _ => 0
  | f + 1, n => if n < 2 then 0 else ilog2_aux f (n / 2) + 1

/-- Position of the highest set bit of `n` (0 for `n < 2`). -/
def ilog2 (n : Nat) : Nat := ilog2_aux n n

namespace Dbl

/-- Round the positive rational `n / d` to a 53-bit significand, ties to even
(the default rounding mode of C `double` arithmetic).  The result `(m, e)`
stands for `m * 2 ^ e`.  Exponent overflow and subnormal results are outside
the model; for `d = 0` the result is `(0, 0)`, and the division of `term.c`
whose divisor may be zero treats that case apart (`div_to_int`). -/
def round_pos (n d : Nat) : Nat × Int :=
  if n = 0 ∨ d = 0 then (0, 0) else
  let e0 : Int := (ilog2 n : Int) - (ilog2 d : Int) - 53
  let N : Nat := if e0 < 0 then n * 2 ^ (-e0).toNat else n
  let D : Nat := if e0 < 0 then d else d * 2 ^ e0.toNat
  let big : Bool := decide (2 ^ 53 * D ≤ N)
  let D1 : Nat := if big then 2 * D else D
  let e : Int := if big then e0 + 1 else e0
  let q := N / D1
  let r := N % D1
  let m : Nat :=
    if D1 < 2 * r then q + 1 else if 2 * r < D1 then q else if q % 2 = 0 then q else q + 1
  (m, e)

/-- Sign of an integer as a factor. -/
def sgn (a : Int) : Int := if a < 0 then -1 else 1

/-- Conversion of an integer to `double` (`(double) i`). -/
def ofInt (i : Int) : Dbl :=
  let r := round_pos i.natAbs 1
  ⟨sgn i * r.1, r.2⟩

/-- The `double` nearest to the decimal constant `n / d`, as a C literal denotes it. -/
def lit (n d : Nat) : Dbl :=
  let r := round_pos n d
  ⟨r.1, r.2⟩

/-- Correctly rounded quotient `a / b`. -/
def div (a b : Dbl) : Dbl :=
  let r := round_pos a.mant.natAbs b.mant.natAbs
  ⟨sgn a.mant * sgn b.mant * r.1, r.2 + a.exp - b.exp⟩

/-- Correctly rounded product `a * b`. -/
def mul (a b : Dbl) : Dbl :=
  let r := round_pos (a.mant.natAbs * b.mant.natAbs) 1
  ⟨sgn a.mant * sgn b.mant * r.1, r.2 + a.exp + b.exp⟩

/-- Truncation toward zero: the value of a conversion to an integer type whose
range holds the result (`(off_t) x`). -/
def toInt (a : Dbl) : Int :=
  if 0 ≤ a.exp then a.mant * 2 ^ a.exp.toNat else Int.tdiv a.mant (2 ^ (-a.exp).toNat)

/-- The conversion `(int)(a / b)` to a 32-bit `int`: the correctly rounded
quotient, truncated toward zero.  When `b` is zero (the quotient is infinite
or NaN) or the truncated quotient does not fit an `int`, the conversion is
undefined in C; the model takes `INT_MIN`, which is what the conversion
instruction of x86-64 yields. -/
def div_to_int (a b : Dbl) : Int :=
  if b.mant = 0 then -2 ^ 31
  else if -2 ^ 31 ≤ toInt (div a b) ∧ toInt (div a b) < 2 ^ 31 then toInt (div a b)
  else -2 ^ 31

end Dbl

/-! ## Data of the embedding -/

/-- The `whence` argument of `mpg123_seek` and `mpg123_seek_frame`. -/
inductive Whence
  | SEEK_SET
  | SEEK_CUR
deriving DecidableEq, Repr

/-- The `optional_actions` argument of `tcsetattr`. -/
inductive TcWhen
  | TCSANOW
  | TCSAFLUSH
deriving DecidableEq, Repr

/-- The fields of `struct termios` that `term.c` reads or writes. -/
structure Termios where
  c_iflag : Nat
  c_oflag : Nat
  c_cflag : Nat
  c_lflag : Nat
  c_cc : List Nat
deriving DecidableEq, Repr

/-- Texts written to stderr by `fprintf`, `error` and `merror`. -/
inductive Msg
  | hide_cursor
  | cursor_restore
  | cant_set_attributes
  | no_controlling_terminal
  | failed_to_open
  | failed_to_get_attributes
  | failure_setting_attributes
  | hint
  | index_error
  | index_line (c : Nat)
  | seek_failed
  | seek_to_begin_failed
  | seeking_back (back_samples : Int)
  | dropped_now_at
  | STOPPED_STRING
  | PAUSED_STRING
  | EMPTY_STRING
  | eq_values
  | new_pitch
  | playlist_header
  | tag_header
  | newline
  | help_header
  | help_key (key : Nat)
  | help_key2 (key key2 : Nat)
  | help_desc (i : Nat)
  | help_footer
  | accurate_position
  | unable_to_get_state
  | cannot_get_decoder
  | active_decoder
deriving DecidableEq, Repr

/-- The value handed to `set_pitch`, relative to `param.pitch`. -/
inductive PitchArg
  | plus_PITCH_VAL
  | plus_PITCH_BVAL
  | minus_PITCH_VAL
  | minus_PITCH_BVAL
  | zero
deriving DecidableEq, Repr

/-- Signals that `term_setup` installs a handler for. -/
inductive Sig
  | SIGCONT
  | SIGUSR1
  | SIGUSR2
deriving DecidableEq, Repr

/-- One call that leaves `term.c`, with the arguments that `term.c` computes. -/
inductive Call
  | out123_pause
  | out123_drop
  | out123_preload_zero
  | out123_preload_param
  | out123_buffered
  | out123_encsize (encoding : Int)
  | mpg123_seek (off : Int) (whence : Whence)
  | mpg123_seek_frame (off : Int) (whence : Whence)
  | mpg123_tpf
  | mpg123_length
  | mpg123_getformat
  | mpg123_tell
  | mpg123_strerror
  | mpg123_volume_change_db (db : Int)
  | mpg123_volume_change_zero
  | mpg123_reset_eq
  | mpg123_geteq (band : Nat)
  | mpg123_eq_change (a b : Nat) (db : Int)
  | mpg123_param_verbose (v : Int)
  | mpg123_param_rva (v : Int)
  | mpg123_index
  | mpg123_getstate_accurate
  | mpg123_current_decoder
  | print_stat (offset : Int) (draw_bar : Int)
  | clear_stat
  | set_mute (mute : Int)
  | set_pitch (p : PitchArg)
  | set_intflag
  | next_track
  | next_dir
  | prev_track
  | prev_dir
  | print_playlist
  | print_id3_tag
  | print_header
  | print_header_compact
  | term_width
  | continue_msg_bookmark
  | fprintf (m : Msg)
  | error (m : Msg)
  | term_have_fun
  | ctermid
  | open_tty
  | tcgetattr (fd : Int)
  | tcsetattr (fd : Int) (w : TcWhen) (tio : Termios)
  | close (fd : Int)
  | signal (sig : Sig)
  | select (fd : Int) (usec : Nat)
  | read (fd : Int)
deriving DecidableEq, Repr

/-- The members of the global `param` that `term.c` uses.  `term_usr1` and
`term_usr2` hold the first character of the configured strings. -/
structure Param where
  term_ctrl : Int
  term_visual : Int
  usebuffer : Int
  verbose : Int
  rva : Int
  term_usr1 : Nat
  term_usr2 : Nat
deriving DecidableEq, Repr

/-- The variables of `term.c` (`term_enable`, `term_fd`, `old_tio`, `seeking`,
`prekey`, `pause_cycle`, `offset`), the player globals it shares (`paused`,
`stopped`, `intflag`, `muted`, `framenum`, `param`) and the call log. -/
structure St where
  term_enable : Int
  term_fd : Int
  old_tio : Termios
  seeking : Int
  prekey : Nat
  pause_cycle : Int
  offset : Int
  paused : Int
  stopped : Int
  intflag : Int
  muted : Int
  framenum : Int
  param : Param
  calls : List Call
deriving DecidableEq, Repr

/-- Append one collaborator call to the log. -/
def St.call (s : St) (c : Call) : St := { s with calls := s.calls ++ [c] }

/-- What the collaborators answer; every answer may depend on the calls made so far. -/
structure Env where
  mpg123_tpf : List Call → Dbl
  mpg123_length : List Call → Int
  /-- the values of `channels` and `encoding` after `mpg123_getformat` -/
  mpg123_getformat : List Call → Int × Int
  out123_encsize : Int → Int
  out123_buffered : List Call → Nat
  mpg123_seek_frame : List Call → Int → Whence → Int
  /-- return value and `fill` of `mpg123_index` -/
  mpg123_index : List Call → Int × Nat
  mpg123_getstate : List Call → Int
  /-- whether `mpg123_current_decoder` returns a non-NULL name -/
  mpg123_current_decoder : List Call → Bool
  term_have_fun : List Call → Int
  /-- whether `ctermid` returns a non-NULL name -/
  ctermid : List Call → Bool
  open_tty : List Call → Int
  /-- return value of `tcgetattr` and the attributes it stores on success -/
  tcgetattr : List Call → Int × Termios
  tcsetattr : List Call → Int

/-- The key bindings `MPG123_*_KEY`; their values are defined in `term.h`. -/
structure KeyMap where
  MPG123_STOP_KEY : Nat
  MPG123_NEXT_KEY : Nat
  MPG123_PREV_KEY : Nat
  MPG123_NEXT_DIR_KEY : Nat
  MPG123_PREV_DIR_KEY : Nat
  MPG123_BACK_KEY : Nat
  MPG123_PAUSE_KEY : Nat
  MPG123_QUIT_KEY : Nat
  MPG123_FORWARD_KEY : Nat
  MPG123_REWIND_KEY : Nat
  MPG123_FAST_FORWARD_KEY : Nat
  MPG123_FAST_REWIND_KEY : Nat
  MPG123_FINE_FORWARD_KEY : Nat
  MPG123_FINE_REWIND_KEY : Nat
  MPG123_VOL_UP_KEY : Nat
  MPG123_VOL_DOWN_KEY : Nat
  MPG123_VOL_MUTE_KEY : Nat
  MPG123_RVA_KEY : Nat
  MPG123_VERBOSE_KEY : Nat
  MPG123_PLAYLIST_KEY : Nat
  MPG123_TAG_KEY : Nat
  MPG123_MPEG_KEY : Nat
  MPG123_PITCH_UP_KEY : Nat
  MPG123_PITCH_BUP_KEY : Nat
  MPG123_PITCH_DOWN_KEY : Nat
  MPG123_PITCH_BDOWN_KEY : Nat
  MPG123_PITCH_ZERO_KEY : Nat
  MPG123_BOOKMARK_KEY : Nat
  MPG123_HELP_KEY : Nat
  MPG123_EQ_RESET_KEY : Nat
  MPG123_EQ_SHOW_KEY : Nat
  MPG123_BASS_UP_KEY : Nat
  MPG123_BASS_DOWN_KEY : Nat
  MPG123_MID_UP_KEY : Nat
  MPG123_MID_DOWN_KEY : Nat
  MPG123_TREBLE_UP_KEY : Nat
  MPG123_TREBLE_DOWN_KEY : Nat
  MPG123_FRAME_INDEX_KEY : Nat
  MPG123_VARIOUS_INFO_KEY : Nat
deriving DecidableEq, Repr

/-- Constants that `term.c` takes from headers outside `src/`. -/
structure Cfg where
  keys : KeyMap
  /-- loop time in seconds (`term.h`) -/
  LOOP_CYCLES : Dbl
  VERBOSE_MAX : Int
  MPG123_RVA_MAX : Int
  MPG123_ERR : Int
  MPG123_OK : Int
  ICANON : Nat
  ECHO : Nat
  VMIN : Nat
  VTIME : Nat

/-! ## Terminal input -/

/-- What one `select` plus `read` on the terminal descriptor yields. -/
inductive Poll
  /-- `select` reports nothing readable within the timeout -/
  | idle
  /-- `select` reports the descriptor readable but `read` returns `<= 0` -/
  | read_fail
  /-- `read` delivers one byte -/
  | byte (c : Nat)
deriving DecidableEq, Repr

/-! ## Terminal setup and signals (`term.c` lines 81-117) -/

/-- `term_setup`: derive the raw attributes from `pattern` (a local copy; the
pattern itself is not written) and apply them.  Returns what `tcsetattr` returns. -/
def term_setup (cfg : Cfg) (env : Env) (s : St) (pattern : Termios) : Int × St :=
  let tio := pattern
  let s := s.call (.signal .SIGCONT)
  let s := s.call (.signal .SIGUSR1)
  let s := s.call (.signal .SIGUSR2)
  let tio := { tio with c_lflag := tio.c_lflag &&& (0xFFFFFFFF ^^^ (cfg.ICANON ||| cfg.ECHO)) }
  let tio := { tio with c_cc := tio.c_cc.set cfg.VMIN 1 }
  let tio := { tio with c_cc := tio.c_cc.set cfg.VTIME 0 }
  (env.tcsetattr s.calls, s.call (.tcsetattr s.term_fd .TCSANOW tio))

/-- `term_sigcont`: handler of SIGCONT. -/
def term_sigcont (cfg : Cfg) (env : Env) (s : St) : St :=
  let s : St := { s with term_enable := 0 }
  let r := term_setup cfg env s s.old_tio
  if r.1 < 0 then r.2.call (.fprintf .cant_set_attributes)
  else { r.2 with term_enable := 1 }

/-- `term_sigusr`: handler of SIGUSR1 and SIGUSR2. -/
def term_sigusr (s : St) (sig : Sig) : St :=
  match sig with
  | .SIGUSR1 => { s with prekey := s.param.term_usr1 }
  | .SIGUSR2 => { s with prekey := s.param.term_usr2 }
  | .SIGCONT => s

/-- `term_init` (with `HAVE_CTERMID`). -/
def term_init (cfg : Cfg) (env : Env) (s : St) : St :=
  let fun_ := env.term_have_fun s.calls
  let s := s.call .term_have_fun
  let s := if fun_ ≠ 0 then s.call (.fprintf .hide_cursor) else s
  if s.param.term_ctrl = 0 then s else
  let s : St := { s with term_enable := 0 }
  let term_name := env.ctermid s.calls
  let s := s.call .ctermid
  if term_name = false then s.call (.error .no_controlling_terminal) else
  let fd := env.open_tty s.calls
  let s := s.call .open_tty
  let s : St := { s with term_fd := fd }
  if s.term_fd < 0 then s.call (.error .failed_to_open) else
  let g := env.tcgetattr s.calls
  let s := s.call (.tcgetattr s.term_fd)
  let s := if g.1 < 0 then s else { s with old_tio := g.2 }
  if g.1 < 0 then s.call (.error .failed_to_get_attributes) else
  let r := term_setup cfg env s s.old_tio
  if r.1 < 0 then (r.2.call (.close r.2.term_fd)).call (.error .failure_setting_attributes)
  else { r.2 with term_enable := 1 }

/-- `term_hint`. -/
def term_hint (s : St) : St :=
  if s.term_enable ≠ 0 then s.call (.fprintf .hint) else s

/-- `term_exit`. -/
def term_exit (env : Env) (s : St) : St :=
  let fun_ := env.term_have_fun s.calls
  let s := s.call .term_have_fun
  let s := if fun_ ≠ 0 then s.call (.fprintf .cursor_restore) else s
  if s.term_enable = 0 then s else
  let s := s.call (.tcsetattr s.term_fd .TCSAFLUSH s.old_tio)
  let s := if s.term_fd > -1 then s.call (.close s.term_fd) else s
  { s with term_fd := -1 }

/-! ## Pause cycle and seek mode (`term.c` lines 176-281) -/

/-- `print_index`; its return value is not used by the caller. -/
def print_index (cfg : Cfg) (env : Env) (s : St) : St :=
  let r := env.mpg123_index s.calls
  let s := s.call .mpg123_index
  if r.1 = cfg.MPG123_ERR then (s.call .mpg123_strerror).call (.fprintf .index_error)
  else (List.range r.2).foldl (fun (t : St) c => t.call (.fprintf (.index_line c))) s

/-- The expression `(int)(LOOP_CYCLES/mpg123_tpf(fr))`. -/
def loop_frames (cfg : Cfg) (env : Env) (s : St) : Int :=
  Dbl.div_to_int cfg.LOOP_CYCLES (env.mpg123_tpf s.calls)

/-- `pause_recycle`. -/
def pause_recycle (cfg : Cfg) (env : Env) (s : St) : St :=
  let n := loop_frames cfg env s
  let s := s.call .mpg123_tpf
  let s : St := { s with pause_cycle := n }
  { s with offset := s.offset - s.pause_cycle }

/-- `pause_uncycle`. -/
def pause_uncycle (s : St) : St :=
  { s with offset := s.offset + s.pause_cycle }

/-- `seekmode`. -/
def seekmode (env : Env) (s : St) : St :=
  if s.param.usebuffer ≠ 0 ∧ s.stopped = 0 then
    let s : St := { s with stopped := 1 }
    let s := s.call .out123_pause
    let s := if s.param.verbose ≠ 0 then s.call (.print_stat 0 0) else s
    let fmt := env.mpg123_getformat s.calls
    let s := s.call .mpg123_getformat
    let channels := fmt.1
    let encoding := fmt.2
    let pcmframe := env.out123_encsize encoding * channels
    let s := s.call (.out123_encsize encoding)
    let back_samples : Int := if pcmframe > 0 then (env.out123_buffered s.calls : Int) / pcmframe else 0
    let s := if pcmframe > 0 then s.call .out123_buffered else s
    let s := if s.param.verbose > 2 then
        (s.call .mpg123_tell).call (.fprintf (.seeking_back back_samples)) else s
    let s := s.call (.mpg123_seek (-back_samples) .SEEK_CUR)
    let s := s.call .out123_drop
    let s := if s.param.verbose > 2 then (s.call .mpg123_tell).call (.fprintf .dropped_now_at) else s
    let s := s.call (.fprintf .STOPPED_STRING)
    if s.param.verbose ≠ 0 then s.call (.print_stat 0 1) else s
  else s

/-! ## Key polling (`term.c` lines 285-312) -/

/-- `get_key`: `tty` lists what the coming polls of the terminal yield (a
terminal that has run out of entries stays silent).  The first component is
`some val` when `get_key` returns 1 and stores `val`, `none` when it returns 0. -/
def get_key (do_delay : Int) (s : St) (tty : List Poll) : Option Nat × St × List Poll :=
  if s.prekey ≠ 0 then (some s.prekey, { s with prekey := 0 }, tty)
  else
    let s := s.call (.select s.term_fd (if do_delay ≠ 0 then 10 * 1000 else 0))
    match tty with
    | [] => (none, s, [])
    | .idle :: rest => (none, s, rest)
    | .read_fail :: rest => (none, s.call (.read s.term_fd), rest)
    | .byte c :: rest => (some c, s.call (.read s.term_fd), rest)

/-! ## Key dispatch (`term.c` lines 314-623) -/

/-- The `case` labels of the `switch` in `term_handle_key`. -/
inductive Label
  | back
  | next
  | next_dir
  | quit
  | pause
  | stop
  | fine_rewind
  | fine_forward
  | rewind
  | forward
  | fast_rewind
  | fast_forward
  | vol_up
  | vol_down
  | vol_mute
  | eq_reset
  | eq_show
  | bass_up
  | bass_down
  | mid_up
  | mid_down
  | treble_up
  | treble_down
  | pitch_up
  | pitch_bup
  | pitch_down
  | pitch_bdown
  | pitch_zero
  | verbose
  | rva
  | prev
  | prev_dir
  | playlist
  | tag
  | mpeg
  | help
  | frame_index
  | various_info
  | digit
  | bookmark
  | default
deriving DecidableEq, Repr

/-- The `case` constants of the `switch` in source order, each with the block it selects. -/
def switch_cases (k : KeyMap) : List (Nat × Label) :=
  [ (k.MPG123_BACK_KEY, .back), (k.MPG123_NEXT_KEY, .next), (k.MPG123_NEXT_DIR_KEY, .next_dir),
    (k.MPG123_QUIT_KEY, .quit), (k.MPG123_PAUSE_KEY, .pause), (k.MPG123_STOP_KEY, .stop),
    (32, .stop),
    (k.MPG123_FINE_REWIND_KEY, .fine_rewind), (k.MPG123_FINE_FORWARD_KEY, .fine_forward),
    (k.MPG123_REWIND_KEY, .rewind), (k.MPG123_FORWARD_KEY, .forward),
    (k.MPG123_FAST_REWIND_KEY, .fast_rewind), (k.MPG123_FAST_FORWARD_KEY, .fast_forward),
    (k.MPG123_VOL_UP_KEY, .vol_up), (k.MPG123_VOL_DOWN_KEY, .vol_down),
    (k.MPG123_VOL_MUTE_KEY, .vol_mute), (k.MPG123_EQ_RESET_KEY, .eq_reset),
    (k.MPG123_EQ_SHOW_KEY, .eq_show), (k.MPG123_BASS_UP_KEY, .bass_up),
    (k.MPG123_BASS_DOWN_KEY, .bass_down), (k.MPG123_MID_UP_KEY, .mid_up),
    (k.MPG123_MID_DOWN_KEY, .mid_down), (k.MPG123_TREBLE_UP_KEY, .treble_up),
    (k.MPG123_TREBLE_DOWN_KEY, .treble_down), (k.MPG123_PITCH_UP_KEY, .pitch_up),
    (k.MPG123_PITCH_BUP_KEY, .pitch_bup), (k.MPG123_PITCH_DOWN_KEY, .pitch_down),
    (k.MPG123_PITCH_BDOWN_KEY, .pitch_bdown), (k.MPG123_PITCH_ZERO_KEY, .pitch_zero),
    (k.MPG123_VERBOSE_KEY, .verbose), (k.MPG123_RVA_KEY, .rva), (k.MPG123_PREV_KEY, .prev),
    (k.MPG123_PREV_DIR_KEY, .prev_dir), (k.MPG123_PLAYLIST_KEY, .playlist),
    (k.MPG123_TAG_KEY, .tag), (k.MPG123_MPEG_KEY, .mpeg), (k.MPG123_HELP_KEY, .help),
    (k.MPG123_FRAME_INDEX_KEY, .frame_index), (k.MPG123_VARIOUS_INFO_KEY, .various_info),
    (48, .digit), (49, .digit), (50, .digit), (51, .digit), (52, .digit), (53, .digit),
    (54, .digit), (55, .digit), (56, .digit), (57, .digit),
    (k.MPG123_BOOKMARK_KEY, .bookmark) ]

/-- A `switch` compiles only when its `case` constants are pairwise different. -/
def KeyMap.WellFormed (k : KeyMap) : Prop := ((switch_cases k).map Prod.fst).Nodup

instance (k : KeyMap) : Decidable k.WellFormed := by
  unfold KeyMap.WellFormed; infer_instance

/-- The block that `switch(val)` jumps to. -/
def switch_label (k : KeyMap) (val : Nat) : Label :=
  ((switch_cases k).lookup val).getD .default

/-- The table `term_help`: `key` and `key2` of every entry, in source order
(the description of entry `i` is logged as `Msg.help_desc i`). -/
def term_help (k : KeyMap) : List (Nat × Nat) :=
  [ (k.MPG123_STOP_KEY, 32), (k.MPG123_NEXT_KEY, 0), (k.MPG123_PREV_KEY, 0),
    (k.MPG123_NEXT_DIR_KEY, 0), (k.MPG123_PREV_DIR_KEY, 0), (k.MPG123_BACK_KEY, 0),
    (k.MPG123_PAUSE_KEY, 0), (k.MPG123_FORWARD_KEY, 0), (k.MPG123_REWIND_KEY, 0),
    (k.MPG123_FAST_FORWARD_KEY, 0), (k.MPG123_FAST_REWIND_KEY, 0),
    (k.MPG123_FINE_FORWARD_KEY, 0), (k.MPG123_FINE_REWIND_KEY, 0), (k.MPG123_VOL_UP_KEY, 0),
    (k.MPG123_VOL_DOWN_KEY, 0), (k.MPG123_VOL_MUTE_KEY, 0), (k.MPG123_RVA_KEY, 0),
    (k.MPG123_VERBOSE_KEY, 0), (k.MPG123_PLAYLIST_KEY, 0), (k.MPG123_TAG_KEY, 0),
    (k.MPG123_MPEG_KEY, 0), (k.MPG123_PITCH_UP_KEY, k.MPG123_PITCH_BUP_KEY),
    (k.MPG123_PITCH_DOWN_KEY, k.MPG123_PITCH_BDOWN_KEY), (k.MPG123_PITCH_ZERO_KEY, 0),
    (k.MPG123_BOOKMARK_KEY, 0), (k.MPG123_HELP_KEY, 0), (k.MPG123_QUIT_KEY, 0),
    (k.MPG123_EQ_RESET_KEY, 0), (k.MPG123_EQ_SHOW_KEY, 0), (k.MPG123_BASS_UP_KEY, 0),
    (k.MPG123_BASS_DOWN_KEY, 0), (k.MPG123_MID_UP_KEY, 0), (k.MPG123_MID_DOWN_KEY, 0),
    (k.MPG123_TREBLE_UP_KEY, 0), (k.MPG123_TREBLE_DOWN_KEY, 0) ]

/-- Modelled from the spec: `set_intflag` is defined outside `src/`; following
"quit (marks a global interrupt condition, does not seek)" it raises `intflag`. -/
def set_intflag (s : St) : St :=
  { s.call .set_intflag with intflag := 1 }

/-- The pitch blocks of `term_handle_key` (lines 466-483). -/
def pitch_block (s : St) (p : PitchArg) : St :=
  let s := if s.param.verbose ≠ 0 then s.call (.print_stat 0 0) else s
  let s := s.call (.set_pitch p)
  let s := if s.param.verbose > 1 then s.call (.fprintf .new_pitch) else s
  if s.param.verbose ≠ 0 then s.call (.print_stat 0 1) else s

/-- The common head of the blocks `MPG123_FRAME_INDEX_KEY` and `MPG123_VARIOUS_INFO_KEY`. -/
def info_head (s : St) : St :=
  if s.param.verbose ≠ 0 then (s.call (.print_stat 0 0)).call (.fprintf .newline) else s

/-- The expression `(off_t)( (num/10.)*len )` of the digit block. -/
def jump_target (num len : Int) : Int :=
  Dbl.toInt (Dbl.mul (Dbl.div (Dbl.ofInt num) (Dbl.ofInt 10)) (Dbl.ofInt len))

/-- The digit block of `term_handle_key` (lines 590-605). -/
def digit_block (env : Env) (s : St) (val : Nat) : St :=
  let num : Int := if val = 48 then 10 else (val : Int) - 48
  let num := num - 1
  let len := env.mpg123_length s.calls
  let s := s.call .mpg123_length
  let s := s.call .out123_pause
  let s := s.call .out123_drop
  if len > 0 then s.call (.mpg123_seek (jump_target num len) .SEEK_SET) else s

/-- `term_handle_key`. -/
def term_handle_key (cfg : Cfg) (env : Env) (s : St) (val : Nat) : St :=
  match switch_label cfg.keys val with
  | .back =>
    let s := s.call .out123_pause
    let s := s.call .out123_drop
    let s := if s.paused ≠ 0 then
        { s.call .mpg123_tpf with pause_cycle := loop_frames cfg env s } else s
    let r := env.mpg123_seek_frame s.calls 0 .SEEK_SET
    let s := s.call (.mpg123_seek_frame 0 .SEEK_SET)
    let s := if r < 0 then (s.call .mpg123_strerror).call (.error .seek_to_begin_failed) else s
    { s with framenum := 0 }
  | .next => ((s.call .out123_pause).call .out123_drop).call .next_track
  | .next_dir => ((s.call .out123_pause).call .out123_drop).call .next_dir
  | .quit =>
    let s := if s.stopped ≠ 0 then
        let s := if s.param.verbose ≠ 0 then s.call (.print_stat 0 0) else s
        let s : St := { s with stopped := 0 }
        (s.call .out123_pause).call .out123_drop
      else s
    let s := set_intflag s
    { s with offset := 0 }
  | .pause =>
    let s : St := { s with paused := 1 - s.paused }
    let s := s.call .out123_pause
    let s := s.call .out123_drop
    let s := if s.paused ≠ 0 then pause_recycle cfg env (s.call .out123_preload_zero)
      else s.call .out123_preload_param
    let s := if s.stopped ≠ 0 then { s with stopped := 0 } else s
    if s.param.verbose ≠ 0 then s.call (.print_stat 0 1)
    else s.call (.fprintf (if s.paused ≠ 0 then .PAUSED_STRING else .EMPTY_STRING))
  | .stop =>
    let s : St := { s with stopped := 1 - s.stopped }
    let s := if s.paused ≠ 0 then { s with paused := 0, offset := s.offset - s.pause_cycle } else s
    let s := if s.stopped ≠ 0 then s.call .out123_pause
      else if s.offset ≠ 0 then s.call .out123_drop else s
    if s.param.verbose ≠ 0 then s.call (.print_stat 0 1)
    else s.call (.fprintf (if s.stopped ≠ 0 then .STOPPED_STRING else .EMPTY_STRING))
  | .fine_rewind => let s := seekmode env s; { s with offset := s.offset - 1 }
  | .fine_forward => let s := seekmode env s; { s with offset := s.offset + 1 }
  | .rewind => let s := seekmode env s; { s with offset := s.offset - 10 }
  | .forward => let s := seekmode env s; { s with offset := s.offset + 10 }
  | .fast_rewind => let s := seekmode env s; { s with offset := s.offset - 50 }
  | .fast_forward => let s := seekmode env s; { s with offset := s.offset + 50 }
  | .vol_up => s.call (.mpg123_volume_change_db 1)
  | .vol_down => s.call (.mpg123_volume_change_db (-1))
  | .vol_mute =>
    let s : St := { s with muted := if s.muted = 0 then 1 else 0 }
    s.call (.set_mute s.muted)
  | .eq_reset => s.call .mpg123_reset_eq
  | .eq_show =>
    let s := if s.param.verbose ≠ 0 then s.call (.print_stat 0 0) else s
    (((s.call (.mpg123_geteq 0)).call (.mpg123_geteq 1)).call (.mpg123_geteq 2)).call
      (.fprintf .eq_values)
  | .bass_up => s.call (.mpg123_eq_change 0 0 1)
  | .bass_down => s.call (.mpg123_eq_change 0 0 (-1))
  | .mid_up => s.call (.mpg123_eq_change 1 1 1)
  | .mid_down => s.call (.mpg123_eq_change 1 1 (-1))
  | .treble_up => s.call (.mpg123_eq_change 2 31 1)
  | .treble_down => s.call (.mpg123_eq_change 2 31 (-1))
  | .pitch_up => pitch_block s .plus_PITCH_VAL
  | .pitch_bup => pitch_block s .plus_PITCH_BVAL
  | .pitch_down => pitch_block s .minus_PITCH_VAL
  | .pitch_bdown => pitch_block s .minus_PITCH_BVAL
  | .pitch_zero => pitch_block s .zero
  | .verbose =>
    let s : St := { s with param := { s.param with verbose := s.param.verbose + 1 } }
    let s := if s.param.verbose > cfg.VERBOSE_MAX then
        { s with param := { s.param with verbose := 0 } }.call .clear_stat else s
    s.call (.mpg123_param_verbose s.param.verbose)
  | .rva =>
    let s : St := { s with param := { s.param with rva := s.param.rva + 1 } }
    let s := if s.param.rva > cfg.MPG123_RVA_MAX then
        { s with param := { s.param with rva := 0 } } else s
    let s := s.call (.mpg123_param_rva s.param.rva)
    let s := s.call .mpg123_volume_change_zero
    if s.param.verbose ≠ 0 then s.call (.print_stat 0 1) else s
  | .prev => ((s.call .out123_pause).call .out123_drop).call .prev_track
  | .prev_dir => ((s.call .out123_pause).call .out123_drop).call .prev_dir
  | .playlist =>
    let s := if s.param.verbose ≠ 0 then s.call (.print_stat 0 0) else s
    ((s.call (.fprintf .playlist_header)).call .print_playlist).call (.fprintf .newline)
  | .tag =>
    let s := if s.param.verbose ≠ 0 then s.call (.print_stat 0 0) else s
    (((s.call (.fprintf .tag_header)).call .term_width).call .print_id3_tag).call
      (.fprintf .newline)
  | .mpeg =>
    let s := if s.param.verbose ≠ 0 then s.call (.print_stat 0 0) else s
    let s := s.call (.fprintf .newline)
    let s := if s.param.verbose > 1 then s.call .print_header else s.call .print_header_compact
    s.call (.fprintf .newline)
  | .help =>
    let s := if s.param.verbose ≠ 0 then s.call (.print_stat 0 0) else s
    let s := s.call (.fprintf .help_header)
    let s := (List.range (term_help cfg.keys).length).foldl
      (fun (t : St) i =>
        let e := (term_help cfg.keys).getD i (0, 0)
        let t := if e.2 ≠ 0 then t.call (.fprintf (.help_key2 e.1 e.2))
          else t.call (.fprintf (.help_key e.1))
        t.call (.fprintf (.help_desc i))) s
    (s.call (.fprintf .help_footer)).call (.fprintf .newline)
  | .frame_index =>
    let s := info_head s
    let s := print_index cfg env s
    let r := env.mpg123_getstate s.calls
    let s := s.call .mpg123_getstate_accurate
    if r = cfg.MPG123_OK then s.call (.fprintf .accurate_position)
    else (s.call .mpg123_strerror).call (.error .unable_to_get_state)
  | .various_info =>
    let s := info_head s
    let curdec := env.mpg123_current_decoder s.calls
    let s := s.call .mpg123_current_decoder
    if curdec = false then s.call (.fprintf .cannot_get_decoder)
    else s.call (.fprintf .active_decoder)
  | .digit => digit_block env s val
  | .bookmark => s.call .continue_msg_bookmark
  | .default => s

/-- `term_handle_input`: the loop `while(get_key(do_delay, &val)) term_handle_key(fr, ao, val);`.
`none` means that the loop has not ended within `fuel` calls of `get_key`. -/
def term_handle_input (cfg : Cfg) (env : Env) :
    Nat → Int → St → List Poll → Option (St × List Poll)
  | 0, _, _, _ => none
  | fuel + 1, do_delay, s, tty =>
    match get_key do_delay s tty with
    | (none, s, tty) => some (s, tty)
    | (some val, s, tty) => term_handle_input cfg env fuel do_delay (term_handle_key cfg env s val) tty

/-- The clamp of `term_control` line 233. -/
def clamp_offset (s : St) : St :=
  if s.offset < 0 ∧ -s.offset > s.framenum then { s with offset := -s.framenum } else s

/-- The rest of the loop body of `term_control` after `term_handle_input`
(lines 233-235): clamp the offset, and print the status if it has changed. -/
def after_input (old_offset : Int) (s : St) : St :=
  let s := clamp_offset s
  if s.param.verbose ≠ 0 ∧ s.offset ≠ old_offset then s.call (.print_stat s.offset 1) else s

/-- The `do ... while (!intflag && stopped)` loop of `term_control` (lines 229-236).
`none` means that the loop has not ended within `fuel` rounds. -/
def control_loop (cfg : Cfg) (env : Env) : Nat → St → List Poll → Option (St × List Poll)
  | 0, _, _ => none
  | fuel + 1, s, tty =>
    let old_offset := s.offset
    match term_handle_input cfg env fuel (Int.lor s.stopped s.seeking) s tty with
    | none => none
    | some (s, tty) =>
      let s := after_input old_offset s
      if s.intflag = 0 ∧ s.stopped ≠ 0 then control_loop cfg env fuel s tty else some (s, tty)

/-- The tail of `term_control` (lines 240-248): apply the net offset. -/
def apply_offset (env : Env) (s : St) : St :=
  if s.offset ≠ 0 then
    let r := env.mpg123_seek_frame s.calls s.offset .SEEK_CUR
    let s := s.call (.mpg123_seek_frame s.offset .SEEK_CUR)
    let s : St := { s with offset := r }
    if s.offset ≥ 0 then s else (s.call .mpg123_strerror).call (.error .seek_failed)
  else s

/-- `term_control`; it always returns 0, so only the state and the unread
terminal input are given. -/
def term_control (cfg : Cfg) (env : Env) (fuel : Nat) (s : St) (tty : List Poll) :
    Option (St × List Poll) :=
  let s : St := { s with offset := 0 }
  if s.term_enable = 0 then some (s, tty) else
  let s := if s.paused ≠ 0 then
      let s : St := { s with pause_cycle := s.pause_cycle - 1 }
      if s.pause_cycle < 0 then pause_recycle cfg env s else s
    else s
  match control_loop cfg env fuel s tty with
  | none => none
  | some (s, tty) => some (apply_offset env s, tty)

/-! ## Sample data for concrete runs -/

/-- A sample key binding (character codes), pairwise different as C requires. -/
def sample_keys : KeyMap where
  MPG123_STOP_KEY := 115
  MPG123_NEXT_KEY := 102
  MPG123_PREV_KEY := 100
  MPG123_NEXT_DIR_KEY := 93
  MPG123_PREV_DIR_KEY := 91
  MPG123_BACK_KEY := 98
  MPG123_PAUSE_KEY := 112
  MPG123_QUIT_KEY := 113
  MPG123_FORWARD_KEY := 46
  MPG123_REWIND_KEY := 44
  MPG123_FAST_FORWARD_KEY := 58
  MPG123_FAST_REWIND_KEY := 59
  MPG123_FINE_FORWARD_KEY := 62
  MPG123_FINE_REWIND_KEY := 60
  MPG123_VOL_UP_KEY := 43
  MPG123_VOL_DOWN_KEY := 45
  MPG123_VOL_MUTE_KEY := 117
  MPG123_RVA_KEY := 114
  MPG123_VERBOSE_KEY := 118
  MPG123_PLAYLIST_KEY := 108
  MPG123_TAG_KEY := 116
  MPG123_MPEG_KEY := 109
  MPG123_PITCH_UP_KEY := 99
  MPG123_PITCH_BUP_KEY := 67
  MPG123_PITCH_DOWN_KEY := 120
  MPG123_PITCH_BDOWN_KEY := 88
  MPG123_PITCH_ZERO_KEY := 119
  MPG123_BOOKMARK_KEY := 107
  MPG123_HELP_KEY := 104
  MPG123_EQ_RESET_KEY := 101
  MPG123_EQ_SHOW_KEY := 69
  MPG123_BASS_UP_KEY := 97
  MPG123_BASS_DOWN_KEY := 122
  MPG123_MID_UP_KEY := 65
  MPG123_MID_DOWN_KEY := 90
  MPG123_TREBLE_UP_KEY := 84
  MPG123_TREBLE_DOWN_KEY := 66
  MPG123_FRAME_INDEX_KEY := 105
  MPG123_VARIOUS_INFO_KEY := 73

/-- Sample constants: a loop time of 2.0 s, the Linux values of the termios
constants and the libmpg123 return codes. -/
def sample_cfg : Cfg where
  keys := sample_keys
  LOOP_CYCLES := Dbl.lit 2 1
  VERBOSE_MAX := 3
  MPG123_RVA_MAX := 2
  MPG123_ERR := -1
  MPG123_OK := 0
  ICANON := 2
  ECHO := 8
  VMIN := 6
  VTIME := 5

/-- Sample terminal attributes: canonical mode with echo. -/
def sample_tio : Termios where
  c_iflag := 0
  c_oflag := 0
  c_cflag := 0
  c_lflag := 2 ||| 8 ||| 1
  c_cc := List.replicate 32 0

/-- Sample collaborators: a track of 1000 frames with 0.025 s per frame, 16-bit
stereo output with `buffered` bytes in the output buffer, every seek
succeeding, and a terminal that opens as descriptor 3. -/
def sample_env (buffered : Nat) : Env where
  mpg123_tpf := fun _ => Dbl.lit 25 1000
  mpg123_length := fun _ => 1000
  mpg123_getformat := fun _ => (2, 208)
  out123_encsize := fun _ => 2
  out123_buffered := fun _ => buffered
  mpg123_seek_frame := fun _ off _ => if off < 0 then 0 else off
  mpg123_index := fun _ => (0, 0)
  mpg123_getstate := fun _ => 0
  mpg123_current_decoder := fun _ => true
  term_have_fun := fun _ => 0
  ctermid := fun _ => true
  open_tty := fun _ => 3
  tcgetattr := fun _ => (0, sample_tio)
  tcsetattr := fun _ => 0

/-- A player that is playing at frame `framenum` with terminal control enabled
on descriptor 3, nothing pending and an empty call log. -/
def sample_state (framenum : Int) : St where
  term_enable := 1
  term_fd := 3
  old_tio := sample_tio
  seeking := 0
  prekey := 0
  pause_cycle := 0
  offset := 0
  paused := 0
  stopped := 0
  intflag := 0
  muted := 0
  framenum := framenum
  param := { term_ctrl := 1, term_visual := 0, usebuffer := 0, verbose := 0, rva := 0,
             term_usr1 := 115, term_usr2 := 102 }
  calls := []

/-- Requests that move the decode position: `mpg123_seek` and `mpg123_seek_frame`. -/
def is_seek : Call → Bool
  | .mpg123_seek _ _ => true
  | .mpg123_seek_frame _ _ => true
  | _ => false

/-- The seek requests of a call log, in order. -/
def seek_requests (calls : List Call) : List Call := calls.filter is_seek

/-- The relative frame seek that `term_control` issues for the accumulated offset. -/
def is_offset_seek : Call → Bool
  | .mpg123_seek_frame _ .SEEK_CUR => true
  | _ => false

/-! ## Definitions used by the statements -/

/-- The number of sample frames that `seekmode` seeks back: the bytes in the
output buffer divided by the size of one sample frame (0 when that size is not positive). -/
def seekmode_back (env : Env) (s : St) : Int :=
  let h1 := s.calls ++ [Call.out123_pause] ++ (if s.param.verbose ≠ 0 then [Call.print_stat 0 0] else [])
  let fmt := env.mpg123_getformat h1
  let pcmframe := env.out123_encsize fmt.2 * fmt.1
  let h2 := h1 ++ [Call.mpg123_getformat, Call.out123_encsize fmt.2]
  if pcmframe > 0 then (env.out123_buffered h2 : Int) / pcmframe else 0

/-- The state before `term_init`: control disabled, no descriptor. -/
def fresh_state : St :=
  { sample_state 0 with term_enable := 0, term_fd := -1 }

/-- Collaborators as in `sample_env 0`, but `tcgetattr` fails. -/
def tcgetattr_fail_env : Env :=
  { sample_env 0 with tcgetattr := fun _ => (-1, sample_tio) }

/-- Collaborators as in `sample_env 0`, but `tcsetattr` fails. -/
def tcsetattr_fail_env : Env :=
  { sample_env 0 with tcsetattr := fun _ => -1 }

/-- Collaborators as in `sample_env 0`, but `tcsetattr` succeeds only in
`term_init` (the first seven calls of the log) and fails afterwards. -/
def sigcont_fail_env : Env :=
  { sample_env 0 with tcsetattr := fun h => if h.length ≤ 7 then 0 else -1 }

/-- The call log at the moment `term_init` calls `tcgetattr`. -/
def init_history (env : Env) (s0 : St) : List Call :=
  s0.calls ++ [Call.term_have_fun] ++
    (if env.term_have_fun s0.calls ≠ 0 then [Call.fprintf .hide_cursor] else []) ++
    [Call.ctermid, Call.open_tty]

/-- `k` successive invocations of `term_control` while the terminal stays silent. -/
def silent_ticks (cfg : Cfg) (env : Env) (fuel : Nat) : Nat → St → Option St
  | 0, s => some s
  | k + 1, s =>
    match silent_ticks cfg env fuel k s with
    | none => none
    | some t => (term_control cfg env fuel t []).map Prod.fst

/-- The timeout that `get_key` hands to `select` in `term_control`. -/
def poll_usec (s : St) : Nat := if Int.lor s.stopped s.seeking ≠ 0 then 10 * 1000 else 0

/-- The state after `k` ticks that only counted `pause_cycle` down: one
`select` per tick in the call log, nothing else changed. -/
def countdown_state (s : St) (k : Nat) : St :=
  { s with
    offset := if k = 0 then s.offset else 0
    pause_cycle := s.pause_cycle - k
    calls := s.calls ++ List.replicate k (Call.select s.term_fd (poll_usec s)) }

/-- The call log of `s'` extends that of `s` without a new offset seek. -/
def Quiet (s s' : St) : Prop :=
  s.calls <+: s'.calls ∧ s'.calls.filter is_offset_seek = s.calls.filter is_offset_seek

/-- The state `s` with offset `o` and the calls `extra` appended to its log. -/
def St.bump (s : St) (o : Int) (extra : List Call) : St :=
  { s with offset := o, calls := s.calls ++ extra }

/-- A player that plays at frame 100 through the output buffer. -/
def buffered_state : St :=
  { sample_state 100 with param := { (sample_state 100).param with usebuffer := 1 } }

/-- A player paused at frame 200 with 80 frames left in the pause cycle. -/
def paused_state : St := { sample_state 200 with paused := 1, pause_cycle := 80 }

/-- A player with output buffer that was paused and then took a fine-rewind
key: `seekmode` has set `stopped` while `paused` is still set. -/
def paused_stopped_state : St :=
  term_handle_key sample_cfg (sample_env 4000)
    { buffered_state with paused := 1, pause_cycle := 2 } 60

/-! ## Lemmas on the key table -/

theorem lookup_of_mem_nodup (l : List (Nat × Label)) (k : Nat) (v : Label)
    (hnd : (l.map Prod.fst).Nodup) (hm : (k, v) ∈ l) : l.lookup k = some v := by
  induction l with
  | nil => simp at hm
  | cons a t ih =>
    obtain ⟨a1, a2⟩ := a
    simp only [List.map_cons, List.nodup_cons, List.mem_map, not_exists, not_and] at hnd
    rcases List.mem_cons.mp hm with h | h
    · cases h
      simp [List.lookup]
    · have hne : k ≠ a1 := by
        intro he
        exact hnd.1 (k, v) h he
      have hb : (k == a1) = false := by simpa using hne
      simp only [List.lookup, hb]
      exact ih hnd.2 h

theorem switch_label_of_mem (k : KeyMap) (hk : k.WellFormed) (c : Nat) (lab : Label)
    (hm : (c, lab) ∈ switch_cases k) : switch_label k c = lab := by
  unfold switch_label
  rw [lookup_of_mem_nodup _ c lab hk hm]
  rfl

/-! ## Seek mode -/

theorem seekmode_noop (env : Env) (s : St) (h : ¬ (s.param.usebuffer ≠ 0 ∧ s.stopped = 0)) :
    seekmode env s = s := by
  unfold seekmode
  rw [if_neg h]

theorem seekmode_enter (env : Env) (s : St) (hb : s.param.usebuffer ≠ 0) (hs : s.stopped = 0) :
    { seekmode env s with calls := s.calls } = { s with stopped := 1 } ∧
    (seekmode env s).calls.count .out123_pause = s.calls.count .out123_pause + 1 ∧
    (seekmode env s).calls.count .out123_drop = s.calls.count .out123_drop + 1 ∧
    seek_requests (seekmode env s).calls =
      seek_requests s.calls ++ [.mpg123_seek (-(seekmode_back env s)) .SEEK_CUR] := by
  have h : s.param.usebuffer ≠ 0 ∧ s.stopped = 0 := ⟨hb, hs⟩
  unfold seekmode seekmode_back seek_requests
  rw [if_pos h]
  by_cases hv : s.param.verbose = 0 <;> by_cases hv2 : s.param.verbose > 2 <;>
    simp [St.call, hv, hv2, List.count_append, List.filter_append, is_seek, List.filter_cons] <;>
    split_ifs <;> simp [List.count_cons, is_seek] 

/-! ## Claims on `seekmode` and `get_key` -/

/-- C9, as stated, fails: without output buffer (`param.usebuffer = 0`) and
while playing (`stopped = 0`), `seekmode` leaves `stopped` at 0; it does not
mark playback as stopped. -/
theorem seekmode_unbuffered_not_marked_stopped :
    (sample_state 100).param.usebuffer = 0 ∧ (sample_state 100).stopped = 0 ∧
    (seekmode (sample_env 0) (sample_state 100)).stopped = 0 ∧
    (seekmode (sample_env 0) (sample_state 100)).stopped ≠ 1 := by
  decide

/-- C9, amended: when no output buffering is active (`param.usebuffer = 0`),
`seekmode` does nothing at all: the state, `stopped` included, and the call
log are unchanged (no sink pause, no compensation seek, no buffer drop). -/
theorem seekmode_unbuffered_is_identity (env : Env) (s : St) (h : s.param.usebuffer = 0) :
    seekmode env s = s ∧ (seekmode env s).stopped = s.stopped ∧
    (seekmode env s).calls = s.calls := by
  have h0 : seekmode env s = s := seekmode_noop env s (fun hc => hc.1 h)
  rw [h0]
  exact ⟨rfl, rfl, rfl⟩

theorem seekmode_unbuffered_is_identity_witness :
    (sample_state 100).param.usebuffer = 0 ∧
    (seekmode (sample_env 0) (sample_state 100) = sample_state 100 ∧
     (seekmode (sample_env 0) (sample_state 100)).stopped = (sample_state 100).stopped ∧
     (seekmode (sample_env 0) (sample_state 100)).calls = (sample_state 100).calls) :=
  ⟨by decide, seekmode_unbuffered_is_identity (sample_env 0) (sample_state 100) (by decide)⟩

/-- C5, as stated for every state, fails: in a state without output buffer two
calls of `seekmode` in a row perform the sink pause, the compensation seek
and the buffer drop not once but never. -/
theorem seekmode_twice_unbuffered_no_pause :
    (seekmode (sample_env 0) (seekmode (sample_env 0) (sample_state 100))).calls.count
      .out123_pause = 0 ∧
    (seekmode (sample_env 0) (seekmode (sample_env 0) (sample_state 100))).calls.count
      .out123_drop = 0 ∧
    seek_requests (seekmode (sample_env 0) (seekmode (sample_env 0) (sample_state 100))).calls
      = [] := by
  decide

/-- C5, amended: for every state, a second call of `seekmode` right after a
first one changes no state and calls no collaborator; when output buffering is
active and playback was not stopped, the two calls together mark playback
stopped and perform the sink pause, the backward compensation seek by the
buffered sample count and the buffer drop exactly once; in every other state
neither call does anything. -/
theorem seekmode_idempotent (env : Env) (s : St) :
    seekmode env (seekmode env s) = seekmode env s ∧
    (s.param.usebuffer ≠ 0 ∧ s.stopped = 0 →
      (seekmode env (seekmode env s)).stopped = 1 ∧
      (seekmode env (seekmode env s)).calls.count .out123_pause
        = s.calls.count .out123_pause + 1 ∧
      (seekmode env (seekmode env s)).calls.count .out123_drop
        = s.calls.count .out123_drop + 1 ∧
      seek_requests (seekmode env (seekmode env s)).calls
        = seek_requests s.calls ++ [.mpg123_seek (-(seekmode_back env s)) .SEEK_CUR]) ∧
    (¬ (s.param.usebuffer ≠ 0 ∧ s.stopped = 0) → seekmode env (seekmode env s) = s) := by
  by_cases h : s.param.usebuffer ≠ 0 ∧ s.stopped = 0
  · obtain ⟨h1, h2, h3, h4⟩ := seekmode_enter env s h.1 h.2
    have hst : (seekmode env s).stopped = 1 := by
      have := congrArg St.stopped h1
      simpa using this
    have hidem : seekmode env (seekmode env s) = seekmode env s :=
      seekmode_noop env _ (fun hc => by rw [hst] at hc; exact absurd hc.2 (by decide))
    rw [hidem]
    exact ⟨rfl, fun _ => ⟨hst, h2, h3, h4⟩, fun hn => absurd h hn⟩
  · have h0 : seekmode env s = s := seekmode_noop env s h
    rw [h0, h0]
    exact ⟨rfl, fun hp => absurd hp h, fun _ => rfl⟩

/-- C6: whenever `prekey` is non-zero, whatever the terminal holds, `get_key`
returns 1 with `*val = prekey`, clears `prekey`, and touches neither the
terminal (no `select`, no `read`: the call log is unchanged) nor its pending
input; hence `term_handle_input` dispatches the synthetic key before any
terminal byte that is still waiting. -/
theorem get_key_prekey_first (cfg : Cfg) (env : Env) (do_delay : Int) (s : St)
    (tty : List Poll) (fuel : Nat) (h : s.prekey ≠ 0) :
    get_key do_delay s tty = (some s.prekey, { s with prekey := 0 }, tty) ∧
    (get_key do_delay s tty).2.1.prekey = 0 ∧
    (get_key do_delay s tty).2.1.calls = s.calls ∧
    (get_key do_delay s tty).2.2 = tty ∧
    term_handle_input cfg env (fuel + 1) do_delay s tty =
      term_handle_input cfg env fuel do_delay
        (term_handle_key cfg env { s with prekey := 0 } s.prekey) tty := by
  have hg : get_key do_delay s tty = (some s.prekey, { s with prekey := 0 }, tty) := by
    unfold get_key
    rw [if_pos h]
  refine ⟨hg, ?_, ?_, ?_, ?_⟩
  · rw [hg]
  · rw [hg]
  · rw [hg]
  · rw [term_handle_input, hg]

theorem get_key_prekey_first_witness :
    ({ sample_state 100 with prekey := 115 } : St).prekey ≠ 0 ∧
    (get_key 0 { sample_state 100 with prekey := 115 } [.byte 60, .idle]
        = (some 115, sample_state 100, [.byte 60, .idle]) ∧
     (get_key 0 { sample_state 100 with prekey := 115 } [.byte 60, .idle]).2.1.prekey = 0 ∧
     (get_key 0 { sample_state 100 with prekey := 115 } [.byte 60, .idle]).2.1.calls = [] ∧
     (get_key 0 { sample_state 100 with prekey := 115 } [.byte 60, .idle]).2.2
        = [.byte 60, .idle] ∧
     term_handle_input sample_cfg (sample_env 0) (3 + 1) 0
        { sample_state 100 with prekey := 115 } [.byte 60, .idle] =
      term_handle_input sample_cfg (sample_env 0) 3 0
        (term_handle_key sample_cfg (sample_env 0) (sample_state 100) 115)
        [.byte 60, .idle]) :=
  ⟨by decide,
   get_key_prekey_first sample_cfg (sample_env 0) 0 { sample_state 100 with prekey := 115 }
     [.byte 60, .idle] 3 (by decide)⟩

theorem seekmode_idempotent_witness :
    (seekmode (sample_env 4000)
        (seekmode (sample_env 4000)
          { sample_state 100 with param := { (sample_state 100).param with usebuffer := 1 } })).calls
      = [.out123_pause, .mpg123_getformat, .out123_encsize 208, .out123_buffered,
         .mpg123_seek (-1000) .SEEK_CUR, .out123_drop, .fprintf .STOPPED_STRING] ∧
    (seekmode (sample_env 4000)
        (seekmode (sample_env 4000)
          { sample_state 100 with param := { (sample_state 100).param with usebuffer := 1 } })).stopped
      = 1 :=
  ⟨by decide,
   ((seekmode_idempotent (sample_env 4000)
      { sample_state 100 with param := { (sample_state 100).param with usebuffer := 1 } }).2.1
      ⟨by decide, by decide⟩).1⟩

/-! ## Claims on single keys -/

theorem jump_target_zero (len : Int) : jump_target 0 len = 0 := by
  simp [jump_target, Dbl.ofInt, Dbl.div, Dbl.mul, Dbl.toInt, Dbl.round_pos, Dbl.sgn]

/-! ### Rounding in `(off_t)( (num/10.)*len )` -/

theorem ilog2_aux_spec : ∀ (f n : Nat), 1 ≤ n → n ≤ f →
    2 ^ ilog2_aux f n ≤ n ∧ n < 2 ^ (ilog2_aux f n + 1) := by
  intro f
  induction f with
  | zero => intro n h1 h2; omega
  | succ f ih =>
    intro n h1 h2
    rw [ilog2_aux]
    split_ifs with h
    · have : n = 1 := by omega
      subst this
      simp
    · obtain ⟨ha, hb⟩ := ih (n / 2) (by omega) (by omega)
      rw [pow_succ] at hb ⊢
      rw [pow_succ]
      constructor <;> omega

theorem ilog2_spec (n : Nat) (h : 1 ≤ n) : 2 ^ ilog2 n ≤ n ∧ n < 2 ^ (ilog2 n + 1) :=
  ilog2_aux_spec n n h le_rfl

theorem ilog2_lt (n k : Nat) (h : 1 ≤ n) (hk : n < 2 ^ k) : ilog2 n < k := by
  by_contra hc
  have := (ilog2_spec n h).1
  have h2 : 2 ^ k ≤ 2 ^ ilog2 n := Nat.pow_le_pow_right (by norm_num) (by omega)
  omega

theorem ilog2_ge (n k : Nat) (hk : 2 ^ k ≤ n) : k ≤ ilog2 n := by
  by_contra hc
  have h1 : 1 ≤ n := le_trans Nat.one_le_two_pow hk
  have := (ilog2_spec n h1).2
  have h2 : 2 ^ (ilog2 n + 1) ≤ 2 ^ k := Nat.pow_le_pow_right (by norm_num) (by omega)
  omega

theorem ilog2_one : ilog2 1 = 0 := by decide

theorem round_pos_small (n : Nat) (h0 : 0 < n) (h : n < 2 ^ 53) :
    Dbl.round_pos n 1 = (n * 2 ^ (52 - ilog2 n), (ilog2 n : Int) - 52) := by
  have ha : ilog2 n < 53 := ilog2_lt n 53 h0 h
  obtain ⟨hs1, hs2⟩ := ilog2_spec n h0
  have hsplit : 2 ^ (53 - ilog2 n) = 2 * 2 ^ (52 - ilog2 n) := by
    rw [← pow_succ']
    congr 1
    omega
  have hbig : 9007199254740992 ≤ n * 2 ^ (53 - ilog2 n) := by
    have : 9007199254740992 = 2 ^ ilog2 n * 2 ^ (53 - ilog2 n) := by
      rw [← pow_add]
      have : ilog2 n + (53 - ilog2 n) = 53 := by omega
      rw [this]
      norm_num
    rw [this]
    exact Nat.mul_le_mul_right _ hs1
  have hmul : n * 2 ^ (53 - ilog2 n) = 2 * (n * 2 ^ (52 - ilog2 n)) := by
    rw [hsplit]
    ring
  have hdiv : n * 2 ^ (53 - ilog2 n) / 2 = n * 2 ^ (52 - ilog2 n) := by
    rw [hmul, Nat.mul_div_cancel_left _ (by norm_num)]
  have hmod : n * 2 ^ (53 - ilog2 n) % 2 = 0 := by
    rw [hmul, Nat.mul_mod_right]
  have hn : ¬ (n = 0 ∨ 1 = 0) := by omega
  have hn0 : n ≠ 0 := by omega
  simp [Dbl.round_pos, hn0, ilog2_one, ha, hbig, hdiv, hmod]
  omega

theorem round_pos_big (P : Nat) (h : 2 ^ 53 ≤ P) :
    ∃ m : Nat, Dbl.round_pos P 1 = (m, (ilog2 P : Int) - 52) ∧
      2 * P ≤ 2 * m * 2 ^ (ilog2 P - 52) + 2 ^ (ilog2 P - 52) ∧
      2 * m * 2 ^ (ilog2 P - 52) ≤ 2 * P + 2 ^ (ilog2 P - 52) := by
  have ha : 53 ≤ ilog2 P := ilog2_ge P 53 h
  have h0 : 1 ≤ P := le_trans Nat.one_le_two_pow h
  obtain ⟨hs1, hs2⟩ := ilog2_spec P h0
  have hna : ¬ ilog2 P < 53 := by omega
  have hto : ((ilog2 P : Int) - 53).toNat = ilog2 P - 53 := by omega
  have hD1 : 2 * 2 ^ (ilog2 P - 53) = 2 ^ (ilog2 P - 52) := by
    rw [← pow_succ']
    congr 1
    omega
  have hbig : 9007199254740992 * 2 ^ (ilog2 P - 53) ≤ P := by
    have : 9007199254740992 * 2 ^ (ilog2 P - 53) = 2 ^ ilog2 P := by
      have h53 : (9007199254740992 : Nat) = 2 ^ 53 := by norm_num
      rw [h53, ← pow_add]
      congr 1
      omega
    rw [this]
    exact hs1
  have hP0 : P ≠ 0 := by omega
  have hdm := Nat.div_add_mod P (2 ^ (ilog2 P - 52))
  have hmlt := Nat.mod_lt P (Nat.two_pow_pos (ilog2 P - 52))
  simp only [Dbl.round_pos, hP0, ilog2_one, hna, hto, hbig, hD1, false_or, one_ne_zero,
    if_false, Nat.cast_zero, sub_zero, sub_neg, Nat.cast_lt_ofNat, one_mul, decide_True,
    if_true, mul_one, Nat.reducePow]
  generalize 2 ^ (ilog2 P - 52) = Q at *
  generalize hq : P / Q = q at *
  generalize hr : P % Q = r at *
  have he : ((ilog2 P : Int) - 53 + 1) = (ilog2 P : Int) - 52 := by omega
  rw [he]
  refine ⟨_, rfl, ?_⟩
  clear h hs1 hs2 hbig hto hna ha h0 hP0 hD1 hq hr he
  subst hdm
  split_ifs <;> constructor <;> nlinarith

theorem tenths_core (m Q A mx u X2 L W Z : Nat)
    (f1 : 2 * (mx * A) ≤ 2 * m * Q + Q) (f2 : 2 * m * Q ≤ 2 * (mx * A) + Q)
    (hA : A = L * W) (hAQ : A < 2 * Q) (hZQ : Z * Q = W * X2)
    (h4a : 10 * mx ≤ u * X2 + 5) (h4b : u * X2 ≤ 10 * mx + 5) (hZ : 32 ≤ Z) :
    (u * L) / 10 ≤ m / Z + 1 ∧ m / Z ≤ (u * L) / 10 := by
  have hB : u * X2 * A = (u * L * Z) * Q := by
    rw [hA]
    calc u * X2 * (L * W) = u * L * (W * X2) := by ring
      _ = u * L * (Z * Q) := by rw [hZQ]
      _ = u * L * Z * Q := by ring
  have g3 : 10 * (mx * A) ≤ u * X2 * A + 5 * A := by
    have := Nat.mul_le_mul_right A h4a
    calc 10 * (mx * A) = 10 * mx * A := by ring
      _ ≤ (u * X2 + 5) * A := this
      _ = u * X2 * A + 5 * A := by ring
  have g4 : u * X2 * A ≤ 10 * (mx * A) + 5 * A := by
    have := Nat.mul_le_mul_right A h4b
    calc u * X2 * A ≤ (10 * mx + 5) * A := this
      _ = 10 * (mx * A) + 5 * A := by ring
  have hmQ : 2 * m * Q = 2 * (m * Q) := by ring
  rw [hmQ] at f1 f2
  rw [hB] at g3 g4
  have hup : (20 * m) * Q < (2 * (u * L * Z) + 30) * Q := by
    have e1 : 20 * m * Q = 20 * (m * Q) := by ring
    have e2 : (2 * (u * L * Z) + 30) * Q = 2 * (u * L * Z * Q) + 30 * Q := by ring
    rw [e1, e2]
    generalize m * Q = a at *
    generalize mx * A = b at *
    generalize u * L * Z * Q = c at *
    omega
  have hup' : 20 * m < 2 * (u * L * Z) + 30 := Nat.lt_of_mul_lt_mul_right hup
  have hlo : (2 * (u * L * Z)) * Q < (20 * m + 30) * Q := by
    have e1 : (20 * m + 30) * Q = 20 * (m * Q) + 30 * Q := by ring
    have e2 : 2 * (u * L * Z) * Q = 2 * (u * L * Z * Q) := by ring
    rw [e1, e2]
    generalize m * Q = a at *
    generalize mx * A = b at *
    generalize u * L * Z * Q = c at *
    omega
  have hlo' : 2 * (u * L * Z) < 20 * m + 30 := Nat.lt_of_mul_lt_mul_right hlo
  have hZ0 : 0 < Z := by omega
  have hd := Nat.div_add_mod (u * L) 10
  have hm := Nat.mod_lt (u * L) (show 0 < 10 by norm_num)
  clear hup hlo f1 f2 g3 g4 hB hA hAQ hZQ h4a h4b hmQ
  generalize (u * L) / 10 = qd at *
  generalize (u * L) % 10 = rd at *
  have e2 : u * L * Z = 10 * (qd * Z) + rd * Z := by
    rw [← hd]
    ring
  have e3 : rd * Z ≤ 9 * Z := Nat.mul_le_mul_right Z (by omega)
  rw [e2] at hup' hlo'
  constructor
  · rcases Nat.eq_zero_or_pos qd with h0 | h0
    · rw [h0]
      exact Nat.zero_le _
    · have : qd - 1 ≤ m / Z := by
        rw [Nat.le_div_iff_mul_le hZ0]
        obtain ⟨k, rfl⟩ : ∃ k, qd = k + 1 := ⟨qd - 1, by omega⟩
        simp only [Nat.add_sub_cancel]
        have e4 : (k + 1) * Z = k * Z + Z := by ring
        rw [e4] at hup' hlo'
        generalize k * Z = a at *
        generalize rd * Z = b at *
        omega
      exact Nat.le_add_of_sub_le this
  · have : m / Z < qd + 1 := by
      rw [Nat.div_lt_iff_lt_mul hZ0]
      have e4 : (qd + 1) * Z = qd * Z + Z := by ring
      rw [e4]
      generalize qd * Z = a at *
      generalize rd * Z = b at *
      omega
    exact Nat.lt_succ_iff.mp this

theorem ofInt_pos (L : Nat) (h0 : 0 < L) (h : L < 2 ^ 53) :
    Dbl.ofInt (L : Int) = ⟨((L * 2 ^ (52 - ilog2 L) : Nat) : Int), (ilog2 L : Int) - 52⟩ := by
  have hs : Dbl.sgn (L : Int) = 1 := by
    simp [Dbl.sgn]
  simp only [Dbl.ofInt, Int.natAbs_ofNat, round_pos_small L h0 h, hs, one_mul]

theorem mul_tenth_bound (mx X u L : Nat) (hmx1 : 2 ^ 52 ≤ mx) (hmx2 : mx < 2 ^ 53)
    (hX1 : 53 ≤ X) (hX2 : X ≤ 56)
    (h4a : 10 * mx ≤ u * 2 ^ X + 5) (h4b : u * 2 ^ X ≤ 10 * mx + 5)
    (hL0 : 0 < L) (hL : L < 2 ^ 48) :
    ∃ r : Nat, Dbl.toInt (Dbl.mul ⟨(mx : Int), -(X : Int)⟩ (Dbl.ofInt (L : Int))) = (r : Int) ∧
      (u * L) / 10 ≤ r + 1 ∧ r ≤ (u * L) / 10 := by
  have hL53 : L < 2 ^ 53 := lt_of_lt_of_le hL (Nat.pow_le_pow_right (by norm_num) (by norm_num))
  have ha : ilog2 L < 48 := ilog2_lt L 48 hL0 hL
  obtain ⟨hs1, hs2⟩ := ilog2_spec L hL0
  -- the significand of `(double) L`
  have hA1 : 2 ^ 52 ≤ L * 2 ^ (52 - ilog2 L) := by
    have : 2 ^ 52 = 2 ^ ilog2 L * 2 ^ (52 - ilog2 L) := by
      rw [← pow_add]
      congr 1
      omega
    rw [this]
    exact Nat.mul_le_mul_right _ hs1
  have hA2 : L * 2 ^ (52 - ilog2 L) < 2 ^ 53 := by
    have : 2 ^ 53 = 2 ^ (ilog2 L + 1) * 2 ^ (52 - ilog2 L) := by
      rw [← pow_add]
      congr 1
      omega
    rw [this]
    exact Nat.mul_lt_mul_of_pos_right hs2 (Nat.two_pow_pos _)
  -- the exact product
  have hP1 : 2 ^ 104 ≤ mx * (L * 2 ^ (52 - ilog2 L)) := by
    have : 2 ^ 104 = 2 ^ 52 * 2 ^ 52 := by norm_num
    rw [this]
    exact Nat.mul_le_mul hmx1 hA1
  have hP2 : mx * (L * 2 ^ (52 - ilog2 L)) < 2 ^ 106 := by
    have : 2 ^ 106 = 2 ^ 53 * 2 ^ 53 := by norm_num
    rw [this]
    exact Nat.mul_lt_mul_of_lt_of_le hmx2 (le_of_lt hA2) (Nat.two_pow_pos 53)
  have hb1 : 104 ≤ ilog2 (mx * (L * 2 ^ (52 - ilog2 L))) := ilog2_ge _ 104 hP1
  have hb2 : ilog2 (mx * (L * 2 ^ (52 - ilog2 L))) < 106 :=
    ilog2_lt _ 106 (le_trans Nat.one_le_two_pow hP1) hP2
  obtain ⟨m, hr, f1, f2⟩ := round_pos_big (mx * (L * 2 ^ (52 - ilog2 L)))
    (le_trans (Nat.pow_le_pow_right (by norm_num) (by norm_num)) hP1)
  have hsx : Dbl.sgn (mx : Int) = 1 := by simp [Dbl.sgn]
  have hsa : Dbl.sgn ((L * 2 ^ (52 - ilog2 L) : Nat) : Int) = 1 := by
    simp only [Dbl.sgn]
    rw [if_neg]
    exact not_lt.mpr (Int.ofNat_nonneg _)
  generalize hb : ilog2 (mx * (L * 2 ^ (52 - ilog2 L))) = b at *
  have hexp : ((b : Int) - 52 + -(X : Int) + ((ilog2 L : Int) - 52)) =
      -((104 + X - ilog2 L - b : Nat) : Int) := by omega
  have hneg : ¬ (0 : Int) ≤ -((104 + X - ilog2 L - b : Nat) : Int) := by omega
  refine ⟨m / 2 ^ (104 + X - ilog2 L - b), ?_, ?_⟩
  · rw [ofInt_pos L hL0 hL53]
    simp only [Dbl.mul, Int.natAbs_ofNat, hr, hsx, hsa, one_mul, hexp, Dbl.toInt, if_neg hneg,
      neg_neg, Int.toNat_ofNat]
    rw [Int.ofNat_tdiv, Nat.cast_pow]
    rfl
  · have hZ : 32 ≤ 2 ^ (104 + X - ilog2 L - b) := by
      have : 32 = 2 ^ 5 := by norm_num
      rw [this]
      exact Nat.pow_le_pow_right (by norm_num) (by omega)
    have hQ : 2 ^ 52 ≤ 2 ^ (b - 52) := Nat.pow_le_pow_right (by norm_num) (by omega)
    have hZQ : 2 ^ (104 + X - ilog2 L - b) * 2 ^ (b - 52) = 2 ^ (52 - ilog2 L) * 2 ^ X := by
      rw [← pow_add, ← pow_add]
      congr 1
      omega
    exact tenths_core m (2 ^ (b - 52)) (L * 2 ^ (52 - ilog2 L)) mx u (2 ^ X) L
      (2 ^ (52 - ilog2 L)) (2 ^ (104 + X - ilog2 L - b)) f1 f2 rfl
      (by
        have : 2 ^ 53 = 2 * 2 ^ 52 := by norm_num
        omega)
      hZQ h4a h4b hZ

theorem tenth_consts :
    Dbl.div (Dbl.ofInt 1) (Dbl.ofInt 10) = ⟨7205759403792794, -56⟩ ∧
    Dbl.div (Dbl.ofInt 2) (Dbl.ofInt 10) = ⟨7205759403792794, -55⟩ ∧
    Dbl.div (Dbl.ofInt 3) (Dbl.ofInt 10) = ⟨5404319552844595, -54⟩ ∧
    Dbl.div (Dbl.ofInt 4) (Dbl.ofInt 10) = ⟨7205759403792794, -54⟩ ∧
    Dbl.div (Dbl.ofInt 5) (Dbl.ofInt 10) = ⟨4503599627370496, -53⟩ ∧
    Dbl.div (Dbl.ofInt 6) (Dbl.ofInt 10) = ⟨5404319552844595, -53⟩ ∧
    Dbl.div (Dbl.ofInt 7) (Dbl.ofInt 10) = ⟨6305039478318694, -53⟩ ∧
    Dbl.div (Dbl.ofInt 8) (Dbl.ofInt 10) = ⟨7205759403792794, -53⟩ ∧
    Dbl.div (Dbl.ofInt 9) (Dbl.ofInt 10) = ⟨8106479329266893, -53⟩ := by
  decide

theorem jump_target_bounds (num len : Int) (h0 : 0 ≤ num) (h9 : num ≤ 9)
    (hl0 : 0 < len) (hl : len < 2 ^ 48) :
    num * len / 10 - 1 ≤ jump_target num len ∧ jump_target num len ≤ num * len / 10 := by
  obtain ⟨L, rfl⟩ := Int.eq_ofNat_of_zero_le (le_of_lt hl0)
  have hL0 : 0 < L := by exact_mod_cast hl0
  have hL : L < 2 ^ 48 := by exact_mod_cast hl
  obtain ⟨c1, c2, c3, c4, c5, c6, c7, c8, c9⟩ := tenth_consts
  have key : ∀ (u mx X : Nat), Dbl.div (Dbl.ofInt (u : Int)) (Dbl.ofInt 10) =
      ⟨(mx : Int), -(X : Int)⟩ → 2 ^ 52 ≤ mx → mx < 2 ^ 53 → 53 ≤ X → X ≤ 56 →
      10 * mx ≤ u * 2 ^ X + 5 → u * 2 ^ X ≤ 10 * mx + 5 →
      (u : Int) * (L : Int) / 10 - 1 ≤ jump_target (u : Int) (L : Int) ∧
        jump_target (u : Int) (L : Int) ≤ (u : Int) * (L : Int) / 10 := by
    intro u mx X hd a1 a2 a3 a4 a5 a6
    obtain ⟨r, hr, b1, b2⟩ := mul_tenth_bound mx X u L a1 a2 a3 a4 a5 a6 hL0 hL
    rw [jump_target, hd, hr]
    have e : (u : Int) * (L : Int) / 10 = ((u * L / 10 : Nat) : Int) := by
      push_cast
      rfl
    rw [e]
    omega
  have hcases : num = 0 ∨ num = 1 ∨ num = 2 ∨ num = 3 ∨ num = 4 ∨ num = 5 ∨ num = 6 ∨
      num = 7 ∨ num = 8 ∨ num = 9 := by omega
  rcases hcases with h | h | h | h | h | h | h | h | h | h <;> subst h
  · rw [jump_target_zero]
    simp
  · exact key 1 7205759403792794 56 c1 (by norm_num) (by norm_num) (by norm_num) (by norm_num)
      (by norm_num) (by norm_num)
  · exact key 2 7205759403792794 55 c2 (by norm_num) (by norm_num) (by norm_num) (by norm_num)
      (by norm_num) (by norm_num)
  · exact key 3 5404319552844595 54 c3 (by norm_num) (by norm_num) (by norm_num) (by norm_num)
      (by norm_num) (by norm_num)
  · exact key 4 7205759403792794 54 c4 (by norm_num) (by norm_num) (by norm_num) (by norm_num)
      (by norm_num) (by norm_num)
  · exact key 5 4503599627370496 53 c5 (by norm_num) (by norm_num) (by norm_num) (by norm_num)
      (by norm_num) (by norm_num)
  · exact key 6 5404319552844595 53 c6 (by norm_num) (by norm_num) (by norm_num) (by norm_num)
      (by norm_num) (by norm_num)
  · exact key 7 6305039478318694 53 c7 (by norm_num) (by norm_num) (by norm_num) (by norm_num)
      (by norm_num) (by norm_num)
  · exact key 8 7205759403792794 53 c8 (by norm_num) (by norm_num) (by norm_num) (by norm_num)
      (by norm_num) (by norm_num)
  · exact key 9 8106479329266893 53 c9 (by norm_num) (by norm_num) (by norm_num) (by norm_num)
      (by norm_num) (by norm_num)

/-- C3, as stated, fails: with a track length of 1000 the key `5` (code 53)
seeks to position 400, not 500. -/
theorem digit_five_seeks_to_400 :
    (sample_env 0).mpg123_length [] = 1000 ∧
    (term_handle_key sample_cfg (sample_env 0) (sample_state 100) 53).calls
      = [.mpg123_length, .out123_pause, .out123_drop, .mpg123_seek 400 .SEEK_SET] ∧
    Call.mpg123_seek 500 .SEEK_SET ∉
      (term_handle_key sample_cfg (sample_env 0) (sample_state 100) 53).calls := by
  decide

/-- C3, amended: for every track length `len > 0`, a digit key `d` asks for the
length, pauses and drops the output buffer and then issues one absolute seek
to `(off_t)(((n - 1)/10.) * len)`, computed in `double` arithmetic, with
`n = d` for the keys `1`..`9` and `n = 10` for the key `0`.  For `len < 2^48`
that target is the integer part of `(n - 1) * len / 10` or one less than it
(the product is rounded before it is truncated), so the keys `1`..`9` and `0`
seek to 0%, 10%, ..., 80% and 90% of `len`, not to 10%, ..., 100%; key `1`
seeks to position 0.  Nothing else changes, so the accumulator `offset` keeps
its value. -/
theorem digit_key_jump (cfg : Cfg) (env : Env) (s : St) (d : Nat)
    (hk : cfg.keys.WellFormed) (hd : d ≤ 9) (hlen : env.mpg123_length s.calls > 0) :
    term_handle_key cfg env s (48 + d) =
      { s with calls := s.calls ++
          [.mpg123_length, .out123_pause, .out123_drop,
           .mpg123_seek (jump_target ((if d = 0 then 10 else (d : Int)) - 1)
              (env.mpg123_length s.calls)) .SEEK_SET] } ∧
    (term_handle_key cfg env s (48 + d)).offset = s.offset ∧
    jump_target 0 (env.mpg123_length s.calls) = 0 ∧
    (env.mpg123_length s.calls < 2 ^ 48 →
      ((if d = 0 then 10 else (d : Int)) - 1) * env.mpg123_length s.calls / 10 - 1
        ≤ jump_target ((if d = 0 then 10 else (d : Int)) - 1) (env.mpg123_length s.calls) ∧
      jump_target ((if d = 0 then 10 else (d : Int)) - 1) (env.mpg123_length s.calls)
        ≤ ((if d = 0 then 10 else (d : Int)) - 1) * env.mpg123_length s.calls / 10) := by
  have hl : switch_label cfg.keys (48 + d) = .digit := by
    apply switch_label_of_mem _ hk
    interval_cases d <;> simp [switch_cases]
  have h1 : term_handle_key cfg env s (48 + d) =
      { s with calls := s.calls ++
          [.mpg123_length, .out123_pause, .out123_drop,
           .mpg123_seek (jump_target ((if d = 0 then 10 else (d : Int)) - 1)
              (env.mpg123_length s.calls)) .SEEK_SET] } := by
    unfold term_handle_key
    rw [hl]
    simp only [digit_block, St.call, if_pos hlen]
    interval_cases d <;> simp
  refine ⟨h1, ?_, jump_target_zero _, fun hlt => ?_⟩
  · rw [h1]
  · apply jump_target_bounds _ _ _ _ hlen hlt
    · split_ifs <;> omega
    · split_ifs <;> omega

theorem digit_key_jump_witness :
    sample_cfg.keys.WellFormed ∧ (5 : Nat) ≤ 9 ∧
    (sample_env 0).mpg123_length (sample_state 100).calls > 0 ∧
    (sample_env 0).mpg123_length (sample_state 100).calls = 1000 ∧
    jump_target 4 1000 = 400 ∧ jump_target 7 90 = 62 ∧ (7 : Int) * 90 / 10 = 63 ∧
    jump_target 9 1000 = 900 ∧
    (term_handle_key sample_cfg (sample_env 0) (sample_state 100) (48 + 5) =
      { sample_state 100 with calls := (sample_state 100).calls ++
          [.mpg123_length, .out123_pause, .out123_drop,
           .mpg123_seek (jump_target ((if 5 = 0 then 10 else ((5 : Nat) : Int)) - 1)
              ((sample_env 0).mpg123_length (sample_state 100).calls)) .SEEK_SET] } ∧
     (term_handle_key sample_cfg (sample_env 0) (sample_state 100) (48 + 5)).offset
        = (sample_state 100).offset ∧
     jump_target 0 ((sample_env 0).mpg123_length (sample_state 100).calls) = 0 ∧
     ((sample_env 0).mpg123_length (sample_state 100).calls < 2 ^ 48 →
       ((if 5 = 0 then 10 else ((5 : Nat) : Int)) - 1) *
           (sample_env 0).mpg123_length (sample_state 100).calls / 10 - 1
         ≤ jump_target ((if 5 = 0 then 10 else ((5 : Nat) : Int)) - 1)
             ((sample_env 0).mpg123_length (sample_state 100).calls) ∧
       jump_target ((if 5 = 0 then 10 else ((5 : Nat) : Int)) - 1)
           ((sample_env 0).mpg123_length (sample_state 100).calls)
         ≤ ((if 5 = 0 then 10 else ((5 : Nat) : Int)) - 1) *
             (sample_env 0).mpg123_length (sample_state 100).calls / 10)) :=
  ⟨by decide, by decide, by decide, by decide, by decide, by decide, by decide, by decide,
   digit_key_jump sample_cfg (sample_env 0) (sample_state 100) 5 (by decide) (by decide)
     (by decide)⟩

theorem switch_label_pause (k : KeyMap) (hk : k.WellFormed) :
    switch_label k k.MPG123_PAUSE_KEY = .pause := by
  apply switch_label_of_mem _ hk
  simp [switch_cases]

theorem pause_key_engage (cfg : Cfg) (env : Env) (s : St)
    (hk : cfg.keys.WellFormed) (hp : s.paused = 0) :
    term_handle_key cfg env s cfg.keys.MPG123_PAUSE_KEY =
      { s with
        paused := 1
        stopped := 0
        pause_cycle := loop_frames cfg env
          (((s.call .out123_pause).call .out123_drop).call .out123_preload_zero)
        offset := s.offset - loop_frames cfg env
          (((s.call .out123_pause).call .out123_drop).call .out123_preload_zero)
        calls := s.calls ++ [.out123_pause, .out123_drop, .out123_preload_zero, .mpg123_tpf,
          if s.param.verbose ≠ 0 then .print_stat 0 1 else .fprintf .PAUSED_STRING] } := by
  unfold term_handle_key
  rw [switch_label_pause _ hk]
  by_cases hv : s.param.verbose = 0 <;> by_cases hs : s.stopped = 0 <;>
    simp [pause_recycle, St.call, hp, hv, hs, loop_frames]

theorem pause_key_release (cfg : Cfg) (env : Env) (s : St)
    (hk : cfg.keys.WellFormed) (hp : s.paused = 1) :
    term_handle_key cfg env s cfg.keys.MPG123_PAUSE_KEY =
      { s with
        paused := 0
        stopped := 0
        calls := s.calls ++ [.out123_pause, .out123_drop, .out123_preload_param,
          if s.param.verbose ≠ 0 then .print_stat 0 1 else .fprintf .EMPTY_STRING] } := by
  unfold term_handle_key
  rw [switch_label_pause _ hk]
  by_cases hv : s.param.verbose = 0 <;> by_cases hs : s.stopped = 0 <;>
    simp [St.call, hp, hv, hs]

/-- C4 fails on the code: pressing the pause key twice (pause, then unpause)
in a state with `paused = 0` leaves `offset` lowered by the pause cycle
`(int)(LOOP_CYCLES/mpg123_tpf(fr))` that the first key press subtracted; the
unpause branch never calls `pause_uncycle`, which would have added it back. -/
theorem pause_unpause_keeps_bias (cfg : Cfg) (env : Env) (s : St)
    (hk : cfg.keys.WellFormed) (hp : s.paused = 0) :
    (term_handle_key cfg env (term_handle_key cfg env s cfg.keys.MPG123_PAUSE_KEY)
        cfg.keys.MPG123_PAUSE_KEY).offset
      = s.offset - loop_frames cfg env
          (((s.call .out123_pause).call .out123_drop).call .out123_preload_zero) ∧
    (term_handle_key cfg env (term_handle_key cfg env s cfg.keys.MPG123_PAUSE_KEY)
        cfg.keys.MPG123_PAUSE_KEY).paused = 0 ∧
    (pause_uncycle
      (term_handle_key cfg env (term_handle_key cfg env s cfg.keys.MPG123_PAUSE_KEY)
        cfg.keys.MPG123_PAUSE_KEY)).offset = s.offset := by
  rw [pause_key_engage cfg env s hk hp, pause_key_release cfg env _ hk rfl]
  simp [pause_uncycle]

theorem pause_unpause_keeps_bias_witness :
    sample_cfg.keys.WellFormed ∧ (sample_state 100).paused = 0 ∧
    (term_handle_key sample_cfg (sample_env 0)
        (term_handle_key sample_cfg (sample_env 0) (sample_state 100) 112) 112).offset = -80 ∧
    (sample_state 100).offset = 0 ∧
    ((term_handle_key sample_cfg (sample_env 0)
        (term_handle_key sample_cfg (sample_env 0) (sample_state 100)
          sample_cfg.keys.MPG123_PAUSE_KEY) sample_cfg.keys.MPG123_PAUSE_KEY).offset
      = (sample_state 100).offset - loop_frames sample_cfg (sample_env 0)
          ((((sample_state 100).call .out123_pause).call .out123_drop).call
            .out123_preload_zero) ∧
    (term_handle_key sample_cfg (sample_env 0)
        (term_handle_key sample_cfg (sample_env 0) (sample_state 100)
          sample_cfg.keys.MPG123_PAUSE_KEY) sample_cfg.keys.MPG123_PAUSE_KEY).paused = 0 ∧
    (pause_uncycle
      (term_handle_key sample_cfg (sample_env 0)
        (term_handle_key sample_cfg (sample_env 0) (sample_state 100)
          sample_cfg.keys.MPG123_PAUSE_KEY) sample_cfg.keys.MPG123_PAUSE_KEY)).offset
      = (sample_state 100).offset) :=
  ⟨by decide, by decide, by decide, by decide,
   pause_unpause_keeps_bias sample_cfg (sample_env 0) (sample_state 100) (by decide)
     (by decide)⟩

/-! ## Claims on the terminal session -/

/-- C7 fails on the code: when `tcgetattr` fails after `open` has succeeded
(descriptor 3), `term_init` returns with `term_enable = 0` but without closing
the descriptor (no `close` in the call log), whereas the failure of
`term_setup` one step later does close it. -/
theorem term_init_tcgetattr_failure_leaks_descriptor :
    (term_init sample_cfg tcgetattr_fail_env fresh_state).term_enable = 0 ∧
    (term_init sample_cfg tcgetattr_fail_env fresh_state).term_fd = 3 ∧
    (term_init sample_cfg tcgetattr_fail_env fresh_state).calls
      = [.term_have_fun, .ctermid, .open_tty, .tcgetattr 3,
         .error .failed_to_get_attributes] ∧
    Call.close 3 ∉ (term_init sample_cfg tcgetattr_fail_env fresh_state).calls ∧
    Call.close 3 ∈ (term_init sample_cfg tcsetattr_fail_env fresh_state).calls := by
  decide

theorem term_sigcont_keeps (cfg : Cfg) (env : Env) (s : St) :
    (term_sigcont cfg env s).old_tio = s.old_tio ∧
    (term_sigcont cfg env s).term_fd = s.term_fd := by
  simp only [term_sigcont, term_setup]
  split_ifs <;> simp [St.call]

theorem term_sigcont_iterate_keeps (cfg : Cfg) (env : Env) (k : Nat) (s : St) :
    (Nat.iterate (term_sigcont cfg env) k s).old_tio = s.old_tio ∧
    (Nat.iterate (term_sigcont cfg env) k s).term_fd = s.term_fd := by
  induction k generalizing s with
  | zero => exact ⟨rfl, rfl⟩
  | succ k ih =>
    rw [Function.iterate_succ_apply]
    obtain ⟨h1, h2⟩ := ih (term_sigcont cfg env s)
    obtain ⟨h3, h4⟩ := term_sigcont_keeps cfg env s
    exact ⟨h1.trans h3, h2.trans h4⟩

theorem term_init_snapshot (cfg : Cfg) (env : Env) (s0 : St)
    (hctrl : s0.param.term_ctrl ≠ 0) (hen : (term_init cfg env s0).term_enable ≠ 0) :
    (term_init cfg env s0).old_tio = (env.tcgetattr (init_history env s0)).2 ∧
    0 ≤ (env.tcgetattr (init_history env s0)).1 := by
  unfold term_init term_setup init_history at *
  by_cases hf : env.term_have_fun s0.calls = 0 <;>
    simp [St.call, hf, hctrl] at hen ⊢ <;>
    split_ifs at hen ⊢ <;> simp_all [St.call]

theorem term_exit_enabled (env : Env) (s : St) (h : s.term_enable ≠ 0) :
    (term_exit env s).term_fd = -1 ∧
    (term_exit env s).calls = s.calls ++ [Call.term_have_fun] ++
      (if env.term_have_fun s.calls ≠ 0 then [Call.fprintf .cursor_restore] else []) ++
      [Call.tcsetattr s.term_fd .TCSAFLUSH s.old_tio] ++
      (if s.term_fd > -1 then [Call.close s.term_fd] else []) := by
  unfold term_exit
  by_cases hf : env.term_have_fun s.calls = 0 <;> by_cases hd : s.term_fd > -1 <;>
    simp [St.call, hf, hd, h]

theorem term_exit_disabled (env : Env) (s : St) (h : s.term_enable = 0) :
    term_exit env s = { s with calls := s.calls ++ [Call.term_have_fun] ++
      (if env.term_have_fun s.calls ≠ 0 then [Call.fprintf .cursor_restore] else []) } := by
  unfold term_exit
  by_cases hf : env.term_have_fun s.calls = 0 <;> simp [St.call, hf, h]

/-- C8, as stated, fails: after a successful `term_init` and a `term_sigcont`
whose `tcsetattr` fails (`term_enable = 0`, descriptor 3 still open),
`term_exit` neither restores the attributes nor closes the descriptor, and
`term_fd` stays 3. -/
theorem term_exit_after_failed_sigcont_does_nothing :
    (term_sigcont sample_cfg sigcont_fail_env
      (term_init sample_cfg sigcont_fail_env fresh_state)).term_enable = 0 ∧
    (term_init sample_cfg sigcont_fail_env fresh_state).term_enable = 1 ∧
    (term_exit sigcont_fail_env (term_sigcont sample_cfg sigcont_fail_env
      (term_init sample_cfg sigcont_fail_env fresh_state))).term_fd = 3 ∧
    (term_exit sigcont_fail_env (term_sigcont sample_cfg sigcont_fail_env
      (term_init sample_cfg sigcont_fail_env fresh_state))).calls
      = (term_sigcont sample_cfg sigcont_fail_env
          (term_init sample_cfg sigcont_fail_env fresh_state)).calls ++ [.term_have_fun] ∧
    Call.close 3 ∉ (term_exit sigcont_fail_env (term_sigcont sample_cfg sigcont_fail_env
      (term_init sample_cfg sigcont_fail_env fresh_state))).calls ∧
    Call.tcsetattr 3 .TCSAFLUSH sample_tio ∉
      (term_exit sigcont_fail_env (term_sigcont sample_cfg sigcont_fail_env
        (term_init sample_cfg sigcont_fail_env fresh_state))).calls := by
  decide

/-- C8, amended: in every state reached from `term_init` (with terminal control
requested) by any number of `term_sigcont` runs, `old_tio` and `term_fd` are
still those left by `term_init`, and `old_tio` is the snapshot stored by
`tcgetattr` whenever `term_init` succeeded.  If `term_enable` is set,
`term_exit` calls `tcsetattr(term_fd, TCSAFLUSH, &old_tio)` with exactly that
snapshot, closes the descriptor if `term_fd > -1` and leaves `term_fd = -1`.
If `term_enable` is 0, `term_exit` returns after the cursor-restore output:
it makes no terminal call and leaves `term_fd` as it is. -/
theorem term_exit_restores_when_enabled (cfg : Cfg) (env : Env) (s0 : St) (k : Nat)
    (hctrl : s0.param.term_ctrl ≠ 0) :
    (Nat.iterate (term_sigcont cfg env) k (term_init cfg env s0)).old_tio
      = (term_init cfg env s0).old_tio ∧
    (Nat.iterate (term_sigcont cfg env) k (term_init cfg env s0)).term_fd
      = (term_init cfg env s0).term_fd ∧
    ((term_init cfg env s0).term_enable ≠ 0 →
      (term_init cfg env s0).old_tio = (env.tcgetattr (init_history env s0)).2) ∧
    ((Nat.iterate (term_sigcont cfg env) k (term_init cfg env s0)).term_enable ≠ 0 →
      (term_exit env (Nat.iterate (term_sigcont cfg env) k (term_init cfg env s0))).term_fd
        = -1 ∧
      (term_exit env (Nat.iterate (term_sigcont cfg env) k (term_init cfg env s0))).calls
        = (Nat.iterate (term_sigcont cfg env) k (term_init cfg env s0)).calls ++
          [Call.term_have_fun] ++
          (if env.term_have_fun
              (Nat.iterate (term_sigcont cfg env) k (term_init cfg env s0)).calls ≠ 0
            then [Call.fprintf .cursor_restore] else []) ++
          [Call.tcsetattr (term_init cfg env s0).term_fd .TCSAFLUSH
            (term_init cfg env s0).old_tio] ++
          (if (term_init cfg env s0).term_fd > -1
            then [Call.close (term_init cfg env s0).term_fd] else [])) ∧
    ((Nat.iterate (term_sigcont cfg env) k (term_init cfg env s0)).term_enable = 0 →
      term_exit env (Nat.iterate (term_sigcont cfg env) k (term_init cfg env s0))
        = { Nat.iterate (term_sigcont cfg env) k (term_init cfg env s0) with
            calls := (Nat.iterate (term_sigcont cfg env) k (term_init cfg env s0)).calls ++
              [Call.term_have_fun] ++
              (if env.term_have_fun
                  (Nat.iterate (term_sigcont cfg env) k (term_init cfg env s0)).calls ≠ 0
                then [Call.fprintf .cursor_restore] else []) }) := by
  obtain ⟨h1, h2⟩ := term_sigcont_iterate_keeps cfg env k (term_init cfg env s0)
  refine ⟨h1, h2, fun hen => (term_init_snapshot cfg env s0 hctrl hen).1, fun hen => ?_,
    fun hdis => term_exit_disabled env _ hdis⟩
  have := term_exit_enabled env _ hen
  rw [h1, h2] at this
  exact this

theorem term_exit_restores_when_enabled_witness :
    fresh_state.param.term_ctrl ≠ 0 ∧
    (Nat.iterate (term_sigcont sample_cfg (sample_env 0)) 2
      (term_init sample_cfg (sample_env 0) fresh_state)).term_enable ≠ 0 ∧
    (term_exit (sample_env 0) (Nat.iterate (term_sigcont sample_cfg (sample_env 0)) 2
      (term_init sample_cfg (sample_env 0) fresh_state))).term_fd = -1 ∧
    (term_exit (sample_env 0) (Nat.iterate (term_sigcont sample_cfg (sample_env 0)) 2
      (term_init sample_cfg (sample_env 0) fresh_state))).calls
      = (Nat.iterate (term_sigcont sample_cfg (sample_env 0)) 2
          (term_init sample_cfg (sample_env 0) fresh_state)).calls ++
        [.term_have_fun, .tcsetattr 3 .TCSAFLUSH sample_tio, .close 3] :=
  ⟨by decide, by decide,
   ((term_exit_restores_when_enabled sample_cfg (sample_env 0) fresh_state 2
      (by decide)).2.2.2.1 (by decide)).1,
   by decide⟩

/-! ## Pause cycle countdown -/

theorem handle_input_silent (cfg : Cfg) (env : Env) (fuel : Nat) (d : Int) (s : St)
    (hk : s.prekey = 0) :
    term_handle_input cfg env (fuel + 1) d s [] =
      some (s.call (.select s.term_fd (if d ≠ 0 then 10 * 1000 else 0)), []) := by
  simp [term_handle_input, get_key, hk]

theorem after_input_flags (o : Int) (t : St) :
    (after_input o t).intflag = t.intflag ∧ (after_input o t).stopped = t.stopped ∧
    (after_input o t).offset = (clamp_offset t).offset := by
  simp only [after_input, clamp_offset]
  split_ifs <;> exact ⟨rfl, rfl, rfl⟩

theorem control_loop_silent (cfg : Cfg) (env : Env) (fuel : Nat) (s : St)
    (hk : s.prekey = 0) (hrun : ¬ (s.intflag = 0 ∧ s.stopped ≠ 0)) :
    control_loop cfg env (fuel + 2) s [] =
      some (after_input s.offset (s.call (.select s.term_fd (poll_usec s))), []) := by
  rw [control_loop, handle_input_silent cfg env fuel _ s hk]
  simp only [poll_usec]
  obtain ⟨h1, h2, _⟩ := after_input_flags s.offset
    (s.call (.select s.term_fd (if Int.lor s.stopped s.seeking ≠ 0 then 10 * 1000 else 0)))
  rw [if_neg]
  rw [h1, h2]
  exact hrun

theorem tick_countdown (cfg : Cfg) (env : Env) (fuel : Nat) (s : St)
    (hen : s.term_enable ≠ 0) (hp : s.paused ≠ 0) (hpc : 1 ≤ s.pause_cycle)
    (hk : s.prekey = 0) (hrun : ¬ (s.intflag = 0 ∧ s.stopped ≠ 0)) :
    term_control cfg env (fuel + 2) s [] =
      some ({ s with offset := 0, pause_cycle := s.pause_cycle - 1,
                     calls := s.calls ++ [.select s.term_fd (poll_usec s)] }, []) := by
  unfold term_control
  have h1 : ¬ (s.pause_cycle - 1 < 0) := by omega
  simp only [hen, hp, h1, ne_eq, not_false_eq_true, if_true, if_false]
  rw [control_loop_silent cfg env fuel
    { s with offset := 0, pause_cycle := s.pause_cycle - 1 } hk hrun]
  simp [after_input, clamp_offset, apply_offset, St.call, poll_usec]

theorem tick_recycle (cfg : Cfg) (env : Env) (fuel : Nat) (s : St)
    (hen : s.term_enable ≠ 0) (hp : s.paused ≠ 0) (hpc : s.pause_cycle ≤ 0)
    (hk : s.prekey = 0) (hrun : ¬ (s.intflag = 0 ∧ s.stopped ≠ 0)) :
    ∃ s', term_control cfg env (fuel + 2) s [] = some (s', []) ∧
      s'.pause_cycle = loop_frames cfg env s ∧
      s'.calls.count .mpg123_tpf = s.calls.count .mpg123_tpf + 1 ∧
      seek_requests s'.calls = seek_requests s.calls ++
        (if (clamp_offset { s with offset := 0 - loop_frames cfg env s }).offset = 0 then []
         else [.mpg123_seek_frame
                (clamp_offset { s with offset := 0 - loop_frames cfg env s }).offset
                .SEEK_CUR]) := by
  unfold term_control
  have h1 : s.pause_cycle - 1 < 0 := by omega
  simp only [hen, hp, h1, ne_eq, not_false_eq_true, if_true, if_false]
  rw [control_loop_silent cfg env fuel
    (pause_recycle cfg env { s with offset := 0, pause_cycle := s.pause_cycle - 1 }) hk hrun]
  refine ⟨_, rfl, ?_, ?_, ?_⟩
  · simp only [after_input, clamp_offset, apply_offset, St.call, pause_recycle, loop_frames]
    split_ifs <;> rfl
  · simp only [after_input, clamp_offset, apply_offset, St.call, pause_recycle, loop_frames]
    split_ifs <;> simp [List.count_append]
  · simp only [after_input, clamp_offset, apply_offset, St.call, pause_recycle, loop_frames,
      seek_requests]
    split_ifs <;> simp_all [List.filter_append, is_seek]

theorem after_input_prekey (o : Int) (t : St) : (after_input o t).prekey = t.prekey := by
  simp only [after_input, clamp_offset]
  split_ifs <;> rfl

theorem control_loop_silent_hangs (cfg : Cfg) (env : Env) (fuel : Nat) :
    ∀ s : St, s.prekey = 0 → s.intflag = 0 → s.stopped ≠ 0 →
      control_loop cfg env fuel s [] = none := by
  induction fuel with
  | zero => intro s _ _ _; rfl
  | succ f ih =>
    intro s hp hi hs
    rw [control_loop]
    cases f with
    | zero => rfl
    | succ g =>
      rw [handle_input_silent cfg env g _ s hp]
      simp only
      obtain ⟨h1, h2, _⟩ := after_input_flags s.offset
        (s.call (.select s.term_fd (if Int.lor s.stopped s.seeking ≠ 0 then 10 * 1000 else 0)))
      have h3 := after_input_prekey s.offset
        (s.call (.select s.term_fd (if Int.lor s.stopped s.seeking ≠ 0 then 10 * 1000 else 0)))
      rw [if_pos ⟨by rw [h1]; exact hi, by rw [h2]; exact hs⟩]
      exact ih _ (by rw [h3]; exact hp) (by rw [h1]; exact hi) (by rw [h2]; exact hs)

theorem term_control_silent_hangs (cfg : Cfg) (env : Env) (fuel : Nat) (s : St)
    (hen : s.term_enable ≠ 0) (hp : s.prekey = 0) (hi : s.intflag = 0) (hs : s.stopped ≠ 0) :
    term_control cfg env fuel s [] = none := by
  unfold term_control
  simp only [hen, if_false]
  split_ifs <;>
    rw [control_loop_silent_hangs cfg env fuel _ (by simpa [pause_recycle, St.call] using hp)
      (by simpa [pause_recycle, St.call] using hi) (by simpa [pause_recycle, St.call] using hs)]

theorem div_to_int_range (a b : Dbl) :
    -2 ^ 31 ≤ Dbl.div_to_int a b ∧ Dbl.div_to_int a b < 2 ^ 31 := by
  unfold Dbl.div_to_int
  split_ifs with h1 h2
  · constructor <;> norm_num
  · exact h2
  · constructor <;> norm_num

theorem div_to_int_fits (a b : Dbl) (hb : b.mant ≠ 0)
    (h1 : -2 ^ 31 ≤ Dbl.toInt (Dbl.div a b)) (h2 : Dbl.toInt (Dbl.div a b) < 2 ^ 31) :
    Dbl.div_to_int a b = Dbl.toInt (Dbl.div a b) := by
  unfold Dbl.div_to_int
  rw [if_neg hb, if_pos ⟨h1, h2⟩]

/-- C10, as stated, fails: a player that is paused and also stopped (here the
fine-rewind key was pressed while paused playback went through the output
buffer, so that `seekmode` set `stopped`) with terminal control enabled,
`pause_cycle = 2`, no pending key and no key arriving never leaves the
polling loop of `term_control`: the first invocation does not return, so no
countdown and no recycle take place. -/
theorem paused_and_stopped_never_returns :
    paused_stopped_state.term_enable = 1 ∧ paused_stopped_state.paused = 1 ∧
    paused_stopped_state.pause_cycle = 2 ∧ paused_stopped_state.prekey = 0 ∧
    paused_stopped_state.stopped = 1 ∧ paused_stopped_state.intflag = 0 ∧
    ¬ ∃ fuel r,
      term_control sample_cfg (sample_env 4000) fuel paused_stopped_state [] = some r := by
  refine ⟨by decide, by decide, by decide, by decide, by decide, by decide, ?_⟩
  rintro ⟨fuel, r, h⟩
  rw [term_control_silent_hangs sample_cfg (sample_env 4000) fuel paused_stopped_state
    (by decide) (by decide) (by decide) (by decide)] at h
  exact Option.noConfusion h

/-- C10, amended: for every `n >= 0`, starting with terminal control enabled,
`paused` set, `pause_cycle = n`, no pending key, a silent terminal and
playback not stopped or the interrupt flag set (otherwise `term_control` stays
in its polling loop), each of the first `n` invocations of `term_control`
returns and only decrements `pause_cycle` (the call log gains one `select` and
no seek), and invocation `n + 1` recycles exactly once: `pause_cycle` becomes
`(int)(LOOP_CYCLES/mpg123_tpf(fr))`, a 32-bit value that is the truncated
quotient whenever the time per frame is not zero and the truncated quotient
fits an `int`, that many frames are subtracted from `offset` (0 at that
point), and the result, clamped at `-framenum`, is the one relative seek
issued. -/
theorem pause_cycle_countdown (cfg : Cfg) (env : Env) (fuel n : Nat) (s : St)
    (hen : s.term_enable ≠ 0) (hp : s.paused ≠ 0) (hpc : s.pause_cycle = n)
    (hk : s.prekey = 0) (hrun : ¬ (s.intflag = 0 ∧ s.stopped ≠ 0)) (hf : 2 ≤ fuel) :
    (∀ k, k ≤ n → silent_ticks cfg env fuel k s = some (countdown_state s k)) ∧
    ∃ s', silent_ticks cfg env fuel (n + 1) s = some s' ∧
      s'.pause_cycle = loop_frames cfg env (countdown_state s n) ∧
      s'.calls.count .mpg123_tpf = s.calls.count .mpg123_tpf + 1 ∧
      seek_requests s'.calls = seek_requests s.calls ++
        (if (clamp_offset { s with
                offset := 0 - loop_frames cfg env (countdown_state s n) }).offset = 0 then []
         else [.mpg123_seek_frame
                (clamp_offset { s with
                  offset := 0 - loop_frames cfg env (countdown_state s n) }).offset
                .SEEK_CUR]) ∧
      -2 ^ 31 ≤ s'.pause_cycle ∧ s'.pause_cycle < 2 ^ 31 ∧
      ((env.mpg123_tpf (countdown_state s n).calls).mant ≠ 0 →
        -2 ^ 31 ≤ Dbl.toInt (Dbl.div cfg.LOOP_CYCLES
          (env.mpg123_tpf (countdown_state s n).calls)) →
        Dbl.toInt (Dbl.div cfg.LOOP_CYCLES
          (env.mpg123_tpf (countdown_state s n).calls)) < 2 ^ 31 →
        s'.pause_cycle = Dbl.toInt (Dbl.div cfg.LOOP_CYCLES
          (env.mpg123_tpf (countdown_state s n).calls))) := by
  obtain ⟨f, rfl⟩ : ∃ f, fuel = f + 2 := ⟨fuel - 2, by omega⟩
  have hcount : ∀ k, k ≤ n → silent_ticks cfg env (f + 2) k s = some (countdown_state s k) := by
    intro k
    induction k with
    | zero =>
      intro _
      simp [silent_ticks, countdown_state]
    | succ k ih =>
      intro hle
      have hk1 : k ≤ n := by omega
      simp only [silent_ticks, ih hk1]
      have h1 : (1 : Int) ≤ (countdown_state s k).pause_cycle := by
        simp only [countdown_state, hpc]
        omega
      rw [tick_countdown cfg env f (countdown_state s k) hen hp h1 hk hrun]
      simp [countdown_state, poll_usec, List.replicate_succ', Int.sub_sub]
  refine ⟨hcount, ?_⟩
  have h0 : (countdown_state s n).pause_cycle ≤ 0 := by
    simp only [countdown_state, hpc]
    omega
  obtain ⟨s', hs', hpc', htpf, hseek⟩ :=
    tick_recycle cfg env f (countdown_state s n) hen hp h0 hk hrun
  refine ⟨s', ?_, hpc', ?_, ?_, ?_, ?_, ?_⟩
  · simp only [silent_ticks, hcount n le_rfl, hs']
    rfl
  · rw [htpf]
    simp [countdown_state, List.count_append, List.count_replicate]
  · rw [hseek]
    have hc : ∀ t : St, (clamp_offset t).offset =
        if t.offset < 0 ∧ -t.offset > t.framenum then -t.framenum else t.offset := by
      intro t
      unfold clamp_offset
      split_ifs <;> rfl
    have hsr : seek_requests (countdown_state s n).calls = seek_requests s.calls := by
      simp [countdown_state, seek_requests, List.filter_append, List.filter_replicate, is_seek]
    rw [hsr, hc, hc]
    rfl
  · rw [hpc']
    exact (div_to_int_range _ _).1
  · rw [hpc']
    exact (div_to_int_range _ _).2
  · intro hb h1 h2
    rw [hpc']
    exact div_to_int_fits _ _ hb h1 h2

/-! ## The coalesced seek of `term_control` -/

theorem Quiet.quiet_refl (s : St) : Quiet s s := ⟨List.prefix_refl _, rfl⟩

theorem Quiet.quiet_trans {a b c : St} (h1 : Quiet a b) (h2 : Quiet b c) : Quiet a c :=
  ⟨h1.1.trans h2.1, h2.2.trans h1.2⟩

theorem Quiet.of_calls_eq {a b c : St} (h1 : Quiet a b) (h2 : c.calls = b.calls) : Quiet a c := by
  unfold Quiet at *
  rw [h2]
  exact h1

theorem Quiet.quiet_call (s : St) (c : Call) (hc : is_offset_seek c = false) : Quiet s (s.call c) := by
  unfold Quiet St.call
  simp [List.filter_append, hc]

theorem Quiet.foldl {α : Type} (f : St → α → St) (hf : ∀ t a, Quiet t (f t a)) (l : List α)
    (s : St) : Quiet s (l.foldl f s) := by
  induction l generalizing s with
  | nil => exact Quiet.quiet_refl s
  | cons a l ih => exact (hf s a).quiet_trans (ih (f s a))

theorem seekmode_quiet (env : Env) (s : St) : Quiet s (seekmode env s) := by
  by_cases h : s.param.usebuffer ≠ 0 ∧ s.stopped = 0
  · unfold seekmode Quiet
    rw [if_pos h]
    by_cases hv : s.param.verbose = 0 <;> by_cases hv2 : s.param.verbose > 2 <;>
      simp [St.call, hv, hv2, List.filter_append, is_offset_seek] <;>
      split_ifs <;> simp [is_offset_seek]
  · rw [seekmode_noop env s h]
    exact Quiet.quiet_refl s

theorem print_index_quiet (cfg : Cfg) (env : Env) (s : St) : Quiet s (print_index cfg env s) := by
  simp only [print_index]
  split_ifs
  · exact ((Quiet.quiet_call s _ (by rfl)).quiet_trans (Quiet.quiet_call _ _ (by rfl))).quiet_trans (Quiet.quiet_call _ _ (by rfl))
  · exact (Quiet.quiet_call s _ (by rfl)).quiet_trans (Quiet.foldl _ (fun t c => Quiet.quiet_call t _ (by rfl)) _ _)

theorem Quiet.ite_call (s : St) (p : Prop) [Decidable p] (c : Call)
    (hc : is_offset_seek c = false) : Quiet s (if p then s.call c else s) := by
  split_ifs
  · exact Quiet.quiet_call s c hc
  · exact Quiet.quiet_refl s

theorem term_handle_key_quiet (cfg : Cfg) (env : Env) (s : St) (val : Nat) :
    Quiet s (term_handle_key cfg env s val) := by
  unfold term_handle_key
  generalize switch_label cfg.keys val = lab
  cases lab
  case help =>
    simp only
    have h0 : Quiet s ((if s.param.verbose ≠ 0 then s.call (.print_stat 0 0) else s).call
        (.fprintf .help_header)) :=
      (Quiet.ite_call s _ _ (by rfl)).quiet_trans (Quiet.quiet_call _ _ (by rfl))
    refine h0.quiet_trans (Quiet.quiet_trans (Quiet.foldl _ ?_ _ _)
      ((Quiet.quiet_call _ _ (by rfl)).quiet_trans (Quiet.quiet_call _ _ (by rfl))))
    intro t i
    split_ifs
    · exact (Quiet.quiet_call t _ (by rfl)).quiet_trans (Quiet.quiet_call _ _ (by rfl))
    · exact (Quiet.quiet_call t _ (by rfl)).quiet_trans (Quiet.quiet_call _ _ (by rfl))
  case frame_index =>
    simp only
    have h1 : Quiet s (info_head s) := by
      unfold info_head
      split_ifs <;> simp [Quiet, St.call, List.filter_append, is_offset_seek]
    have h2 := print_index_quiet cfg env (info_head s)
    refine (h1.quiet_trans h2).quiet_trans ?_
    split_ifs <;> simp [Quiet, St.call, List.filter_append, is_offset_seek]
  all_goals
    simp only [pitch_block, info_head, digit_block, set_intflag, pause_recycle]
    first
      | (have h := seekmode_quiet env s
         exact h.of_calls_eq rfl)
      | (simp [Quiet, St.call, List.filter_append, is_offset_seek]; done)
      | (split_ifs <;> simp [Quiet, St.call, List.filter_append, is_offset_seek])

theorem get_key_quiet (d : Int) (s : St) (tty : List Poll) :
    Quiet s (get_key d s tty).2.1 := by
  by_cases hp : s.prekey = 0
  · rcases tty with _ | ⟨p, rest⟩
    · simp [get_key, hp, Quiet, St.call, List.filter_append, is_offset_seek]
    · cases p <;> simp [get_key, hp, Quiet, St.call, List.filter_append, is_offset_seek]
  · simp [get_key, hp, Quiet]

theorem term_handle_input_quiet (cfg : Cfg) (env : Env) (fuel : Nat) (d : Int) (s : St)
    (tty : List Poll) (r : St × List Poll)
    (h : term_handle_input cfg env fuel d s tty = some r) : Quiet s r.1 := by
  induction fuel generalizing s tty with
  | zero => simp [term_handle_input] at h
  | succ fuel ih =>
    rw [term_handle_input] at h
    have hg := get_key_quiet d s tty
    rcases hk : get_key d s tty with ⟨_ | val, s1, tty1⟩
    · rw [hk] at h hg
      simp only [Option.some.injEq] at h
      rw [← h]
      exact hg
    · rw [hk] at h hg
      simp only at h
      exact (hg.quiet_trans (term_handle_key_quiet cfg env s1 val)).quiet_trans (ih _ _ h)

theorem clamp_offset_calls (s : St) : (clamp_offset s).calls = s.calls := by
  unfold clamp_offset
  split_ifs <;> rfl

theorem after_input_quiet (o : Int) (s : St) : Quiet s (after_input o s) := by
  unfold after_input
  exact ((Quiet.quiet_refl s).of_calls_eq (clamp_offset_calls s)).quiet_trans
    (Quiet.ite_call _ _ _ (by rfl))

theorem control_loop_quiet (cfg : Cfg) (env : Env) (fuel : Nat) (s : St)
    (tty : List Poll) (r : St × List Poll)
    (h : control_loop cfg env fuel s tty = some r) : Quiet s r.1 := by
  induction fuel generalizing s tty with
  | zero => simp [control_loop] at h
  | succ fuel ih =>
    rw [control_loop] at h
    rcases hi : term_handle_input cfg env fuel (Int.lor s.stopped s.seeking) s tty
      with _ | ⟨s1, tty1⟩
    · rw [hi] at h
      simp at h
    · rw [hi] at h
      simp only at h
      have h1 : Quiet s s1 := term_handle_input_quiet cfg env fuel _ s tty _ hi
      have h3 : Quiet s (after_input s.offset s1) := h1.quiet_trans (after_input_quiet _ _)
      by_cases hc : (after_input s.offset s1).intflag = 0 ∧ (after_input s.offset s1).stopped ≠ 0
      · rw [if_pos hc] at h
        exact h3.quiet_trans (ih _ _ h)
      · rw [if_neg hc] at h
        simp only [Option.some.injEq] at h
        rw [← h]
        exact h3

theorem apply_offset_at_most_one (env : Env) (s : St) :
    s.calls <+: (apply_offset env s).calls ∧
    ((apply_offset env s).calls.filter is_offset_seek).length
      ≤ (s.calls.filter is_offset_seek).length + 1 := by
  simp only [apply_offset]
  split_ifs <;> simp [St.call, List.filter_append, is_offset_seek]

/-- C2, as stated, fails: two digit keys read in one invocation of
`term_control` cause two seek requests in that invocation. -/
theorem two_digit_keys_two_seeks :
    (term_control sample_cfg (sample_env 0) 10 (sample_state 100)
        [.byte 53, .byte 50, .idle]).map (fun r => seek_requests r.1.calls)
      = some [.mpg123_seek 400 .SEEK_SET, .mpg123_seek 100 .SEEK_SET] ∧
    ¬ ([Call.mpg123_seek 400 .SEEK_SET, Call.mpg123_seek 100 .SEEK_SET].length ≤ 1) := by
  decide

/-- C2, amended: for every state and every terminal input, an invocation of
`term_control` that returns has issued at most one relative frame seek
`mpg123_seek_frame(fr, offset, SEEK_CUR)`, the one that applies the
accumulated offset, however many keystrokes were coalesced; the direct seeks
of single keys (digit keys, the back key, the compensation seek of
`seekmode`) are issued in addition to it. -/
theorem at_most_one_offset_seek (cfg : Cfg) (env : Env) (fuel : Nat) (s : St)
    (tty : List Poll) (r : St × List Poll)
    (h : term_control cfg env fuel s tty = some r) :
    s.calls <+: r.1.calls ∧
    (r.1.calls.filter is_offset_seek).length ≤ (s.calls.filter is_offset_seek).length + 1 := by
  unfold term_control at h
  simp only at h
  split_ifs at h with h0 hp hc
  · simp only [Option.some.injEq] at h
    rw [← h]
    exact ⟨List.prefix_refl _, Nat.le_succ _⟩
  all_goals
    rcases hl : control_loop cfg env fuel _ tty with _ | ⟨s1, tty1⟩
    · rw [hl] at h
      simp at h
    · rw [hl] at h
      simp only [Option.some.injEq] at h
      rw [← h]
      have hq := control_loop_quiet cfg env fuel _ tty _ hl
      have ha := apply_offset_at_most_one env s1
      have hq2 : Quiet s s1 := by
        refine Quiet.quiet_trans ?_ hq
        simp [Quiet, pause_recycle, St.call, List.filter_append, is_offset_seek]
      exact ⟨hq2.1.trans ha.1, by rw [← hq2.2]; exact ha.2⟩

/-! ## Accumulation of seek keys -/

theorem Same.bump_bump (s : St) (o1 o2 : Int) (e1 e2 : List Call) :
    (s.bump o1 e1).bump o2 e2 = s.bump o2 (e1 ++ e2) := by
  simp [St.bump]

theorem at_most_one_offset_seek_witness :
    ∃ r, term_control sample_cfg (sample_env 4000) 10 buffered_state
        [.byte 60, .byte 115, .idle] = some r ∧
      seek_requests r.1.calls
        = [.mpg123_seek (-1000) .SEEK_CUR, .mpg123_seek_frame (-1) .SEEK_CUR] ∧
      (buffered_state.calls <+: r.1.calls ∧
       (r.1.calls.filter is_offset_seek).length
         ≤ (buffered_state.calls.filter is_offset_seek).length + 1) := by
  have h : (term_control sample_cfg (sample_env 4000) 10 buffered_state
      [.byte 60, .byte 115, .idle]).isSome = true := by decide
  obtain ⟨r, hr⟩ := Option.isSome_iff_exists.mp h
  refine ⟨r, hr, ?_, at_most_one_offset_seek sample_cfg (sample_env 4000) 10 buffered_state
    [.byte 60, .byte 115, .idle] r hr⟩
  have h2 : (term_control sample_cfg (sample_env 4000) 10 buffered_state
      [.byte 60, .byte 115, .idle]).map (fun r => seek_requests r.1.calls)
      = some [.mpg123_seek (-1000) .SEEK_CUR, .mpg123_seek_frame (-1) .SEEK_CUR] := by decide
  rw [hr] at h2
  simpa using h2

theorem pause_cycle_countdown_witness :
    paused_state.term_enable ≠ 0 ∧ paused_state.paused ≠ 0 ∧
    paused_state.pause_cycle = ((80 : Nat) : Int) ∧
    Dbl.toInt (Dbl.div (Dbl.lit 2 1) (Dbl.lit 25 1000)) = 80 ∧
    loop_frames sample_cfg (sample_env 0) (countdown_state paused_state 80) = 80 ∧
    (clamp_offset { paused_state with
        offset := 0 - loop_frames sample_cfg (sample_env 0)
          (countdown_state paused_state 80) }).offset = -80 ∧
    silent_ticks sample_cfg (sample_env 0) 2 80 paused_state
      = some (countdown_state paused_state 80) ∧
    ∃ s', silent_ticks sample_cfg (sample_env 0) 2 (80 + 1) paused_state = some s' ∧
      s'.pause_cycle = loop_frames sample_cfg (sample_env 0) (countdown_state paused_state 80) ∧
      s'.calls.count .mpg123_tpf = paused_state.calls.count .mpg123_tpf + 1 ∧
      seek_requests s'.calls = seek_requests paused_state.calls ++
        (if (clamp_offset { paused_state with
                offset := 0 - loop_frames sample_cfg (sample_env 0)
                  (countdown_state paused_state 80) }).offset = 0 then []
         else [.mpg123_seek_frame
                (clamp_offset { paused_state with
                  offset := 0 - loop_frames sample_cfg (sample_env 0)
                    (countdown_state paused_state 80) }).offset
                .SEEK_CUR]) ∧
      -2 ^ 31 ≤ s'.pause_cycle ∧ s'.pause_cycle < 2 ^ 31 ∧
      (((sample_env 0).mpg123_tpf (countdown_state paused_state 80).calls).mant ≠ 0 →
        -2 ^ 31 ≤ Dbl.toInt (Dbl.div sample_cfg.LOOP_CYCLES
          ((sample_env 0).mpg123_tpf (countdown_state paused_state 80).calls)) →
        Dbl.toInt (Dbl.div sample_cfg.LOOP_CYCLES
          ((sample_env 0).mpg123_tpf (countdown_state paused_state 80).calls)) < 2 ^ 31 →
        s'.pause_cycle = Dbl.toInt (Dbl.div sample_cfg.LOOP_CYCLES
          ((sample_env 0).mpg123_tpf (countdown_state paused_state 80).calls))) :=
  ⟨by decide, by decide, by decide, by decide, by decide, by decide,
   (pause_cycle_countdown sample_cfg (sample_env 0) 2 80 paused_state (by decide) (by decide)
      (by decide) (by decide) (by decide) (by decide)).1 80 (le_refl 80),
   (pause_cycle_countdown sample_cfg (sample_env 0) 2 80 paused_state (by decide) (by decide)
      (by decide) (by decide) (by decide) (by decide)).2⟩

end Term
